import Mathlib

/-!
# AttendanceApp: the check-in verification routine of `src/App.js`

A shallow embedding of `runVerificationChecks`, `getIpInfo`, `getGeolocation` and
`getDistance` together with the parts of the JavaScript host they rely on
(numbers and their comparison, `Number`, `String.prototype.split`,
`Number.prototype.toFixed`, `Array.prototype.includes`).

Everything the code reads from outside (the settings document, the clock, the
geolocation service, the HTTP response, the build-time environment) is an
explicit input of the model; everything it does to the outside (probe calls,
progress updates) is recorded in an explicit list of effects.

`Number`, `parseInt` and the arithmetic of `timeToMinutes` are computed in binary64
(`JsNum.round`). `getDistance` runs on the operators and the functions of `Math` of
the host (`JsHost`): what is proved about its value is relative to the laws
`HostLaws` and `HostAccuracy`, which are stated as definitions and shown to be met
together by one host.
-/

namespace AttendanceApp

/-! ## JavaScript numbers -/

/-- A JavaScript Number: `NaN`, one of the two infinities, or a finite value, kept
as the exact rational it denotes. Negative zero is identified with zero (nothing
below tells them apart: comparison, `toFixed` and `includes` treat them alike). -/
inductive JsNum where
  | nan
  | posInf
  | negInf
  | fin (q : ℚ)
  deriving DecidableEq

namespace JsNum

/-- The Number denoting a natural number. -/
def ofNat (n : Nat) : JsNum := fin (n : ℚ)

/-- The operator `a < b` on Numbers: false as soon as one side is `NaN`. -/
def lt : JsNum → JsNum → Bool
  | fin a, fin b => decide (a < b)
  | fin _, posInf => true
  | negInf, fin _ => true
  | negInf, posInf => true
  | _, _ => false

/-- The operator `a <= b` on Numbers: false as soon as one side is `NaN`. -/
def le : JsNum → JsNum → Bool
  | fin a, fin b => decide (a ≤ b)
  | fin _, posInf => true
  | negInf, fin _ => true
  | negInf, posInf => true
  | posInf, posInf => true
  | negInf, negInf => true
  | _, _ => false

/-- The operator `a >= b` on Numbers. -/
def ge (a b : JsNum) : Bool := le b a

/-- The rational `2^e` for an integer exponent. -/
def pow2 (e : Int) : ℚ :=
  if 0 ≤ e then (2 : ℚ) ^ e.toNat else 1 / (2 : ℚ) ^ (-e).toNat

/-- The number of halvings that bring `n` below 2, at most `fuel` of them. -/
def halvings : Nat → Nat → Nat
  | 0, _ => 0
  | fuel + 1, n => if n < 2 then 0 else halvings fuel (n / 2) + 1

/-- The integer `k` with `2^k <= a < 2^(k+1)`, for a positive rational `a`. -/
def floorLog2 (a : ℚ) : Int :=
  let k : Int := (halvings a.num.natAbs a.num.natAbs : Int) - (halvings a.den a.den : Int)
  if pow2 k ≤ a then k else k - 1

/-- The integer nearest to a non-negative rational, the even one on a tie. -/
def roundHalfEven (x : ℚ) : Nat :=
  let f := ⌊x⌋.toNat
  if x - f < 1 / 2 then f
  else if 1 / 2 < x - f then f + 1
  else if f % 2 = 0 then f
  else f + 1

/-- The binary64 value nearest to a rational, ties going to the even significand:
the nearest multiple of `2^e`, where `e` leaves 53 significant bits and is at least
`-1074`; an infinity when that multiple reaches `2^1024`; zero when it is zero. -/
def round (q : ℚ) : JsNum :=
  if q = 0 then fin 0
  else
    let e := max (floorLog2 |q| - 52) (-1074)
    let v := (roundHalfEven (|q| / pow2 e) : ℚ) * pow2 e
    if pow2 1024 ≤ v then (if q < 0 then negInf else posInf)
    else fin (if q < 0 then -v else v)

/-- The operator `a * b` on Numbers: the exact product of two finite values,
rounded to binary64. -/
def mul : JsNum → JsNum → JsNum
  | nan, _ => nan
  | _, nan => nan
  | fin a, fin b => round (a * b)
  | fin a, posInf => if a = 0 then nan else if 0 < a then posInf else negInf
  | fin a, negInf => if a = 0 then nan else if 0 < a then negInf else posInf
  | posInf, fin b => if b = 0 then nan else if 0 < b then posInf else negInf
  | negInf, fin b => if b = 0 then nan else if 0 < b then negInf else posInf
  | posInf, posInf => posInf
  | negInf, negInf => posInf
  | posInf, negInf => negInf
  | negInf, posInf => negInf

/-- The operator `a + b` on Numbers: the exact sum of two finite values, rounded to
binary64. -/
def add : JsNum → JsNum → JsNum
  | nan, _ => nan
  | _, nan => nan
  | fin a, fin b => round (a + b)
  | fin _, posInf => posInf
  | fin _, negInf => negInf
  | posInf, fin _ => posInf
  | negInf, fin _ => negInf
  | posInf, posInf => posInf
  | negInf, negInf => negInf
  | posInf, negInf => nan
  | negInf, posInf => nan

/-- The abstract operation ToNumber on a value that may be `undefined`:
`undefined` converts to `NaN`. -/
def ofUndefinable : Option JsNum → JsNum
  | some x => x
  | none => nan

end JsNum

/-! ## Strings: `split` and `Number` -/

/-- The pieces of `s.split(sep)` for a one-character separator, on character lists.
There is always at least one piece; the empty string splits into one empty piece. -/
def splitChars (sep : Char) : List Char → List (List Char)
  | [] => [[]]
  | c :: cs =>
    if c = sep then [] :: splitChars sep cs
    else
      match splitChars sep cs with
      | [] => [[c]]
      | p :: ps => (c :: p) :: ps

/-- The method `s.split(sep)` for a one-character separator. -/
def split (s : String) (sep : Char) : List String :=
  (splitChars sep s.toList).map String.mk

/-- The characters that the string-to-number conversion strips from both ends:
the WhiteSpace and LineTerminator code points. -/
def isStrWhiteSpace (c : Char) : Bool :=
  let n := c.toNat
  n = 9 || n = 10 || n = 11 || n = 12 || n = 13 || n = 32 || n = 160 || n = 5760
    || (8192 ≤ n && n ≤ 8202) || n = 8232 || n = 8233 || n = 8239 || n = 8287
    || n = 12288 || n = 65279

/-- The value of a digit character in the given radix, if it is one. -/
def digitValue (radix : Nat) (c : Char) : Option Nat :=
  let n := c.toNat
  let v : Option Nat :=
    if 48 ≤ n && n ≤ 57 then some (n - 48)
    else if 97 ≤ n && n ≤ 102 then some (n - 87)
    else if 65 ≤ n && n ≤ 70 then some (n - 55)
    else none
  match v with
  | some d => if d < radix then some d else none
  | none => none

/-- The value of a possibly empty run of digits in the given radix (most significant
first), or `none` if some character is not a digit of that radix. -/
def digitsValue (radix : Nat) (cs : List Char) : Option Nat :=
  cs.foldl (fun acc c =>
    match acc, digitValue radix c with
    | some a, some d => some (a * radix + d)
    | _, _ => none) (some 0)

/-- A non-empty run of digits in the given radix, as a Number (its value rounded to
binary64); `NaN` otherwise. -/
def radixLiteral (radix : Nat) (cs : List Char) : JsNum :=
  if cs.isEmpty then JsNum.nan
  else
    match digitsValue radix cs with
    | some v => JsNum.round (v : ℚ)
    | none => JsNum.nan

/-- The exponent part of a decimal literal: nothing (exponent 0), or `e`/`E`, an
optional sign and at least one decimal digit. `none` if the text is anything else. -/
def exponentPart : List Char → Option Int
  | [] => some 0
  | c :: cs =>
    if c = 'e' || c = 'E' then
      let signed : Bool × List Char :=
        match cs with
        | '-' :: ds => (true, ds)
        | '+' :: ds => (false, ds)
        | ds => (false, ds)
      if signed.2.isEmpty then none
      else
        match digitsValue 10 signed.2 with
        | some v => some (if signed.1 then -(v : Int) else (v : Int))
        | none => none
    else none

/-- The rational `q * 10^e` for an integer exponent. -/
def scale10 (q : ℚ) (e : Int) : ℚ :=
  if 0 ≤ e then q * (10 : ℚ) ^ e.toNat else q / (10 : ℚ) ^ (-e).toNat

/-- An unsigned decimal literal (`Infinity`, `12`, `12.`, `12.5`, `.5`, each of the
last four with an optional exponent), as a Number: its mathematical value rounded to
binary64, so a literal too large is an infinity and one too small is zero; `NaN` for
any other text. -/
def unsignedDecimalLiteral (cs : List Char) : JsNum :=
  if cs = "Infinity".toList then JsNum.posInf
  else
    let ip := cs.takeWhile Char.isDigit
    let r1 := cs.dropWhile Char.isDigit
    let fr : List Char × List Char :=
      match r1 with
      | '.' :: t => (t.takeWhile Char.isDigit, t.dropWhile Char.isDigit)
      | _ => ([], r1)
    if ip.isEmpty && fr.1.isEmpty then JsNum.nan
    else
      match digitsValue 10 (ip ++ fr.1), exponentPart fr.2 with
      | some m, some e => JsNum.round (scale10 (m : ℚ) (e - (fr.1.length : Int)))
      | _, _ => JsNum.nan

/-- The negation of a Number. -/
def JsNum.neg : JsNum → JsNum
  | JsNum.nan => JsNum.nan
  | JsNum.posInf => JsNum.negInf
  | JsNum.negInf => JsNum.posInf
  | JsNum.fin q => JsNum.fin (-q)

/-- The text of a numeric string after white space has been stripped, as a Number. -/
def numericLiteral : List Char → JsNum
  | [] => JsNum.fin 0
  | '0' :: 'x' :: ds => radixLiteral 16 ds
  | '0' :: 'X' :: ds => radixLiteral 16 ds
  | '0' :: 'o' :: ds => radixLiteral 8 ds
  | '0' :: 'O' :: ds => radixLiteral 8 ds
  | '0' :: 'b' :: ds => radixLiteral 2 ds
  | '0' :: 'B' :: ds => radixLiteral 2 ds
  | '-' :: ds => (unsignedDecimalLiteral ds).neg
  | '+' :: ds => unsignedDecimalLiteral ds
  | ds => unsignedDecimalLiteral ds

/-- The function `Number(s)` on a string: the StringNumericLiteral grammar of
ECMAScript (surrounding white space, empty text as 0, radix literals, signed
decimal literals with fraction and exponent, `Infinity`); anything else is `NaN`.
The mathematical value is rounded to the nearest binary64 value, as engines do (the
standard allows a coarser result beyond the 20th significant digit). -/
def Number (s : String) : JsNum :=
  let cs := s.toList.dropWhile isStrWhiteSpace
  numericLiteral (cs.reverse.dropWhile isStrWhiteSpace).reverse

/-! ## The time window (lines 493-506 of `App.js`) -/

/-- The local function `timeToMinutes`:
`const [hours, minutes] = timeStr.split(':').map(Number); return hours * 60 + minutes;`.
A piece that is missing from the split is `undefined` and makes the sum `NaN`. -/
def timeToMinutes (timeStr : String) : JsNum :=
  let parts := (split timeStr ':').map Number
  let hours := JsNum.ofUndefinable parts[0]?
  let minutes := JsNum.ofUndefinable parts[1]?
  JsNum.add (JsNum.mul hours (JsNum.ofNat 60)) minutes

/-- The value given to `isTimeAllowed` by lines 501-506:
the window wraps past midnight when the end lies before the start. -/
def isTimeAllowed (currentTimeInMinutes startTimeInMinutes endTimeInMinutes : JsNum) : Bool :=
  if JsNum.lt endTimeInMinutes startTimeInMinutes then
    JsNum.ge currentTimeInMinutes startTimeInMinutes || JsNum.le currentTimeInMinutes endTimeInMinutes
  else
    JsNum.ge currentTimeInMinutes startTimeInMinutes && JsNum.le currentTimeInMinutes endTimeInMinutes

/-! ## Numbers computed by the host -/

/-- The part of the JavaScript host whose results are not modelled value by value:
binary64 arithmetic on inexact operands (each result is rounded), the functions of
`Math`, and the exponential text of a large Number. `getDistance` is written over
these primitives, so what is proved about its callers holds for every host. -/
structure JsHost where
  /-- The operator `a * b` in binary64. -/
  mul : JsNum → JsNum → JsNum
  /-- The operator `a / b` in binary64. -/
  div : JsNum → JsNum → JsNum
  /-- The operator `a + b` in binary64. -/
  add : JsNum → JsNum → JsNum
  /-- The operator `a - b` in binary64. -/
  sub : JsNum → JsNum → JsNum
  /-- The function `Math.sin`. -/
  sin : JsNum → JsNum
  /-- The function `Math.cos`. -/
  cos : JsNum → JsNum
  /-- The function `Math.sqrt`. -/
  sqrt : JsNum → JsNum
  /-- The function `Math.atan2(y, x)`. -/
  atan2 : JsNum → JsNum → JsNum
  /-- The text of a finite Number of magnitude at least `10^21`. -/
  numberToString : ℚ → String

/-- The constant `Math.PI`, the binary64 value 3.141592653589793. -/
def PI : JsNum := JsNum.fin (884279719003555 / 281474976710656)

/-- The method `x.toFixed(fractionDigits)`: the integer `n` for which
`n / 10^fractionDigits` is closest to `|x|` (the larger one on a tie), written in
decimal with the point before its last `fractionDigits` digits. -/
def toFixed (M : JsHost) (x : JsNum) (fractionDigits : Nat) : String :=
  match x with
  | JsNum.nan => "NaN"
  | JsNum.posInf => "Infinity"
  | JsNum.negInf => "-Infinity"
  | JsNum.fin q =>
    let s := if q < 0 then "-" else ""
    if (10 : ℚ) ^ 21 ≤ |q| then s ++ M.numberToString |q|
    else
      let n := ⌊|q| * (10 : ℚ) ^ fractionDigits + 1 / 2⌋.toNat
      let digits := Nat.toDigits 10 n
      let m := List.replicate (fractionDigits + 1 - digits.length) '0' ++ digits
      let a := m.take (m.length - fractionDigits)
      let b := m.drop (m.length - fractionDigits)
      if fractionDigits = 0 then s ++ String.mk a else s ++ String.mk a ++ "." ++ String.mk b

/-! ## Configuration (lines 40-44 of `App.js`) -/

/-- A pair of coordinates as reported by the location service, whose attributes are
finite doubles: each is kept as the exact rational it denotes. -/
structure Coords where
  latitude : ℚ
  longitude : ℚ
  deriving DecidableEq

/-- The constant `OFFICE_COORDINATES = { latitude: -6.3020, longitude: 106.6520 }`:
the two binary64 values nearest to the decimal literals. -/
def OFFICE_COORDINATES : Coords :=
  { latitude := -886927651615277 / 140737488355328
    longitude := 7504967304036221 / 70368744177664 }

/-- The constant `ALLOWED_RADIUS_METERS = 50`. -/
def ALLOWED_RADIUS_METERS : JsNum := JsNum.ofNat 50

/-- The constant `ALLOWED_IPS`: the environment variable `REACT_APP_ALLOWED_IPS`
split at commas when it is set to a non-empty string, the empty list otherwise. -/
def ALLOWED_IPS (REACT_APP_ALLOWED_IPS : Option String) : List String :=
  match REACT_APP_ALLOWED_IPS with
  | some v => if v ≠ "" then split v ',' else []
  | none => []

/-! ## `getDistance` (lines 595-604) -/

/-- The function `getDistance`: the haversine formula, every operation being the
host's binary64 one. -/
def getDistance (M : JsHost) (lat1 lon1 lat2 lon2 : JsNum) : JsNum :=
  let R := JsNum.ofNat 6371000
  let φ1 := M.div (M.mul lat1 PI) (JsNum.ofNat 180)
  let φ2 := M.div (M.mul lat2 PI) (JsNum.ofNat 180)
  let Δφ := M.div (M.mul (M.sub lat2 lat1) PI) (JsNum.ofNat 180)
  let Δlon := M.div (M.mul (M.sub lon2 lon1) PI) (JsNum.ofNat 180)
  let a :=
    M.add
      (M.mul (M.sin (M.div Δφ (JsNum.ofNat 2))) (M.sin (M.div Δφ (JsNum.ofNat 2))))
      (M.mul
        (M.mul (M.mul (M.cos φ1) (M.cos φ2)) (M.sin (M.div Δlon (JsNum.ofNat 2))))
        (M.sin (M.div Δlon (JsNum.ofNat 2))))
  let c := M.mul (JsNum.ofNat 2) (M.atan2 (M.sqrt a) (M.sqrt (M.sub (JsNum.ofNat 1) a)))
  M.mul R c

/-! ## Errors, effects and progress -/

/-- A thrown JavaScript error: the name of its constructor and its message. -/
structure JsError where
  name : String
  message : String
  deriving DecidableEq

/-- The keys of the progress object kept by the dashboard. -/
inductive Check where
  | geo
  | ip
  | vpn
  | final
  deriving DecidableEq

/-- One entry of the progress object: `{ state, message }`. -/
structure StatusEntry where
  state : String
  message : String
  deriving DecidableEq

/-- The progress object `{ geo, ip, vpn, final }`. -/
structure VerificationStatus where
  geo : StatusEntry
  ip : StatusEntry
  vpn : StatusEntry
  final : StatusEntry
  deriving DecidableEq

/-- The object `{ ...prev, [k]: e }`. -/
def VerificationStatus.set (prev : VerificationStatus) (k : Check) (e : StatusEntry) :
    VerificationStatus :=
  match k with
  | Check.geo => { prev with geo := e }
  | Check.ip => { prev with ip := e }
  | Check.vpn => { prev with vpn := e }
  | Check.final => { prev with final := e }

/-- An updater `prev => ({ ...prev, k1: e1, ... })` passed to `setStatus`, as the list
of the entries it overwrites. -/
abbrev StatusUpdate := List (Check × StatusEntry)

/-- The progress object an updater returns for `prev`. -/
def StatusUpdate.apply (u : StatusUpdate) (prev : VerificationStatus) : VerificationStatus :=
  u.foldl (fun s p => s.set p.1 p.2) prev

/-- What the code does to the outside, in the order in which it does it. -/
inductive Effect where
  /-- The call `getDoc(settingsRef)`. -/
  | getDoc
  /-- The call `getGeolocation()`. -/
  | getGeolocation
  /-- The call `getIpInfo()`. -/
  | getIpInfo
  /-- The call `fetch(apiUrl)`. -/
  | fetch (apiUrl : String)
  /-- The call `setStatus(updater)`. -/
  | setStatus (updater : StatusUpdate)
  deriving DecidableEq

/-- The progress object after the `setStatus` calls among the effects, from `prev`. -/
def statusAfter (prev : VerificationStatus) (effects : List Effect) : VerificationStatus :=
  effects.foldl (fun s e =>
    match e with
    | Effect.setStatus u => u.apply s
    | _ => s) prev

/-- The progress updates among the effects. -/
def statusUpdates (effects : List Effect) : List StatusUpdate :=
  effects.filterMap (fun e =>
    match e with
    | Effect.setStatus u => some u
    | _ => none)

/-! ## The attendance policy and the clock -/

/-- The days of the week, as `new Date()` tells them apart. -/
inductive Weekday where
  | sun
  | mon
  | tue
  | wed
  | thu
  | fri
  | sat
  deriving DecidableEq

/-- The string `now.toLocaleDateString('en-US', { weekday: 'short' }).toLowerCase()`. -/
def dayName : Weekday → String
  | Weekday.sun => "sun"
  | Weekday.mon => "mon"
  | Weekday.tue => "tue"
  | Weekday.wed => "wed"
  | Weekday.thu => "thu"
  | Weekday.fri => "fri"
  | Weekday.sat => "sat"

/-- The object `allowedDays` of the settings document: one flag per weekday. -/
structure AllowedDays where
  mon : Bool
  tue : Bool
  wed : Bool
  thu : Bool
  fri : Bool
  sat : Bool
  sun : Bool
  deriving DecidableEq

/-- The truth value of `allowedDays[key]`: the flag stored under the key, and
`undefined`, which is falsy, for any other key. -/
def AllowedDays.lookup (d : AllowedDays) (key : String) : Bool :=
  if key = "mon" then d.mon
  else if key = "tue" then d.tue
  else if key = "wed" then d.wed
  else if key = "thu" then d.thu
  else if key = "fri" then d.fri
  else if key = "sat" then d.sat
  else if key = "sun" then d.sun
  else false

/-- The fields of the settings document `settings/config` that the check-in reads. -/
structure Settings where
  checkInStart : String
  checkInEnd : String
  allowedDays : AllowedDays
  deriving DecidableEq

/-- The object used at line 488 when the settings document does not exist. -/
def defaultSettings : Settings :=
  { checkInStart := "07:00"
    checkInEnd := "11:00"
    allowedDays :=
      { mon := true, tue := true, wed := true, thu := true, fri := true, sat := false, sun := false } }

/-- What the code reads from `now = new Date()`: the weekday, `getHours()` and
`getMinutes()`. -/
structure Now where
  day : Weekday
  hours : Fin 24
  minutes : Fin 60
  deriving DecidableEq

/-! ## `getGeolocation` (lines 578-593) -/

/-- What the browser does with the position request. -/
inductive GeolocationService where
  /-- The navigator has no `geolocation`. -/
  | unsupported
  /-- The success callback is called with `position.coords`. -/
  | position (coords : Coords)
  /-- The error callback is called with an error of this `code`. -/
  | failure (code : Nat)
  deriving DecidableEq

/-- The function `getGeolocation`: the coordinates the promise resolves with, or the
error it rejects with. -/
def getGeolocation : GeolocationService → Except JsError Coords
  | GeolocationService.unsupported =>
    Except.error { name := "Error", message := "Geolocation not supported." }
  | GeolocationService.position coords => Except.ok coords
  | GeolocationService.failure code =>
    let msg := if code = 1 then "Location access denied." else "Could not get location."
    Except.error { name := "Error", message := msg }

/-! ## `getIpInfo` (lines 556-576) -/

/-- The object `data.security` of the lookup response. -/
structure Security where
  is_vpn : Bool
  deriving DecidableEq

/-- The JSON body of the lookup response: `{ message?, ip, security? }`. -/
structure IpServiceData where
  message : Option String
  ip : String
  security : Option Security
  deriving DecidableEq

/-- What `fetch(apiUrl)` and `response.json()` do. -/
inductive FetchOutcome where
  /-- The promise returned by `fetch` rejects. -/
  | rejected (error : JsError)
  /-- A response arrives; `ok` is `response.ok` and `json` what `response.json()`
  settles with. -/
  | response (ok : Bool) (json : Except JsError IpServiceData)

/-- The object `{ ipAddress, isVpnOrProxy }` that `getIpInfo` returns. -/
structure IpInfo where
  ipAddress : String
  isVpnOrProxy : Bool
  deriving DecidableEq

/-- The truth value of an optional string: `undefined` and the empty string are falsy. -/
def truthy : Option String → Bool
  | some m => decide (m ≠ "")
  | none => false

/-- The body of the `try` block of `getIpInfo`, once `fetch` has been called. -/
def ipInfoOfFetch : FetchOutcome → Except JsError IpInfo
  | FetchOutcome.rejected error => Except.error error
  | FetchOutcome.response ok json =>
    if !ok then Except.error { name := "Error", message := "Could not connect to IP service." }
    else
      match json with
      | Except.error error => Except.error error
      | Except.ok data =>
        if truthy data.message then
          Except.error
            { name := "Error", message := "IP Service Error: " ++ data.message.getD "" }
        else
          Except.ok
            { ipAddress := data.ip
              isVpnOrProxy :=
                match data.security with
                | some security => security.is_vpn
                | none => false }

/-- What the free identifier `IPGEOLOCATION_API_KEY` evaluates to. `App.js` declares
no such identifier (line 44 declares `IPQUALITYSCORE_API_KEY`), so in the module as
given it is unresolvable; the other cases are a global of that name. -/
inductive ApiKeyBinding where
  /-- Nothing binds the identifier: reading it throws a ReferenceError. -/
  | unresolvable
  /-- The identifier is bound to `undefined`. -/
  | undefined
  /-- The identifier is bound to a string. -/
  | string (key : String)
  deriving DecidableEq

/-- The function `getIpInfo`, with what it settles with and the effects it has.
Reading an unresolvable `IPGEOLOCATION_API_KEY` on line 557 throws before the `try`
block is entered; every error thrown inside the `try` block is replaced by the
generic one of line 574. -/
def getIpInfo (IPGEOLOCATION_API_KEY : ApiKeyBinding) (net : FetchOutcome) :
    Except JsError IpInfo × List Effect :=
  let afterKeyCheck (key : String) : Except JsError IpInfo × List Effect :=
    let apiUrl := "https://api.ipgeolocation.io/ipgeo?apiKey=" ++ key
    match ipInfoOfFetch net with
    | Except.ok info => (Except.ok info, [Effect.fetch apiUrl])
    | Except.error _ =>
      (Except.error { name := "Error", message := "Could not verify network connection." },
        [Effect.fetch apiUrl])
  match IPGEOLOCATION_API_KEY with
  | ApiKeyBinding.unresolvable =>
    (Except.error { name := "ReferenceError", message := "IPGEOLOCATION_API_KEY is not defined" },
      [])
  | ApiKeyBinding.undefined => afterKeyCheck "undefined"
  | ApiKeyBinding.string key =>
    if key = "YOUR_IPGEOLOCATION_API_KEY" then
      (Except.error { name := "Error", message := "ipgeolocation.io API key not set." }, [])
    else afterKeyCheck key

/-! ## `runVerificationChecks` (lines 478-554) -/

/-- The object `proof`: the evidence recorded under the keys `geo` and `ip`, each
absent until it is assigned. -/
structure Proof where
  geo : Option String
  ip : Option String
  deriving DecidableEq

/-- The object `runVerificationChecks` returns. -/
structure Verdict where
  success : Bool
  reasons : List String
  proof : Proof
  deriving DecidableEq

/-- The mutable locals of `runVerificationChecks`, and the effects had so far. -/
structure CheckState where
  isLocationOk : Bool
  isIpOk : Bool
  isVpnOk : Bool
  reasons : List String
  proof : Proof
  effects : List Effect
  deriving DecidableEq

/-- The reason pushed when the weekday is not allowed. -/
def dayReason : String := "Check-in is not allowed today."

/-- The reason pushed when the time is outside the window. -/
def timeReason (settings : Settings) : String :=
  "Check-in is only allowed between " ++ settings.checkInStart ++ " and "
    ++ settings.checkInEnd ++ "."

/-- The value of `currentTimeInMinutes`: both operands and the result are integers
below 1440, on which binary64 arithmetic is exact. -/
def currentTimeInMinutes (now : Now) : JsNum :=
  JsNum.ofNat (now.hours.val * 60 + now.minutes.val)

/-- Whether the time-window check of lines 497-506 passes for these settings. -/
def timeCheck (settings : Settings) (now : Now) : Bool :=
  isTimeAllowed (currentTimeInMinutes now) (timeToMinutes settings.checkInStart)
    (timeToMinutes settings.checkInEnd)

/-- Whether the day check of line 508 passes for these settings. -/
def dayCheck (settings : Settings) (now : Now) : Bool :=
  settings.allowedDays.lookup (dayName now.day)

/-- Lines 485-513: the settings are read and the two policy checks push their
reasons, neither depending on the other. -/
def policyCheck (settings : Settings) (now : Now) (s : CheckState) : CheckState :=
  let s1 := { s with effects := s.effects ++ [Effect.getDoc] }
  let s2 := if !dayCheck settings now then { s1 with reasons := s1.reasons ++ [dayReason] } else s1
  if !timeCheck settings now then { s2 with reasons := s2.reasons ++ [timeReason settings] } else s2

/-- Lines 520-531: the geolocation check, given what `getGeolocation()` settles with. -/
def geolocationCheck (M : JsHost) (geo : Except JsError Coords) (s : CheckState) : CheckState :=
  let s1 := { s with effects := s.effects ++ [Effect.getGeolocation] }
  match geo with
  | Except.ok userCoords =>
    let distance :=
      getDistance M (JsNum.fin userCoords.latitude) (JsNum.fin userCoords.longitude)
        (JsNum.fin OFFICE_COORDINATES.latitude) (JsNum.fin OFFICE_COORDINATES.longitude)
    let isLocationOk := JsNum.le distance ALLOWED_RADIUS_METERS
    let geoProof :=
      toFixed M (JsNum.fin userCoords.latitude) 4 ++ ", "
        ++ toFixed M (JsNum.fin userCoords.longitude) 4
    let update : StatusUpdate :=
      [(Check.geo,
        { state := if isLocationOk then "success" else "fail"
          message := "Distance: " ++ toFixed M distance 0 ++ "m" })]
    { s1 with
      isLocationOk := isLocationOk
      proof := { s1.proof with geo := some geoProof }
      effects := s1.effects ++ [Effect.setStatus update]
      reasons := if !isLocationOk then s1.reasons ++ ["Out of range"] else s1.reasons }
  | Except.error error =>
    let update : StatusUpdate := [(Check.geo, { state := "fail", message := error.message })]
    { s1 with
      effects := s1.effects ++ [Effect.setStatus update]
      reasons := s1.reasons ++ ["Location failed"] }

/-- Lines 533-547: the network and VPN checks, given the allow-list and what
`getIpInfo()` settles with. -/
def networkCheck (allowed : List String) (net : Except JsError IpInfo) (s : CheckState) :
    CheckState :=
  let s1 := { s with effects := s.effects ++ [Effect.getIpInfo] }
  match net with
  | Except.ok ipInfo =>
    let isIpOk := allowed.contains ipInfo.ipAddress
    let ipUpdate : StatusUpdate :=
      [(Check.ip,
        { state := if isIpOk then "success" else "fail"
          message := "Your IP: " ++ ipInfo.ipAddress })]
    let reasons1 := if !isIpOk then s1.reasons ++ ["Invalid network"] else s1.reasons
    let isVpnOk := !ipInfo.isVpnOrProxy
    let vpnUpdate : StatusUpdate :=
      [(Check.vpn,
        { state := if isVpnOk then "success" else "fail"
          message := if ipInfo.isVpnOrProxy then "Proxy Detected" else "Connection OK" })]
    { s1 with
      proof := { s1.proof with ip := some ipInfo.ipAddress }
      isIpOk := isIpOk
      isVpnOk := isVpnOk
      effects := s1.effects ++ [Effect.setStatus ipUpdate, Effect.setStatus vpnUpdate]
      reasons := if !isVpnOk then reasons1 ++ ["VPN detected"] else reasons1 }
  | Except.error _ =>
    let update : StatusUpdate :=
      [(Check.ip, { state := "fail", message := "Check Failed" }),
       (Check.vpn, { state := "fail", message := "Check Failed" })]
    { s1 with
      effects := s1.effects ++ [Effect.setStatus update]
      reasons := s1.reasons ++ ["Network check failed"] }

/-- The result of one call: the verdict returned and the effects had, in order. -/
structure Run where
  verdict : Verdict
  effects : List Effect
  deriving DecidableEq

/-- The settings line 488 works with: the data of the settings document, or the
defaults when `settingsSnap.exists()` is false (`settingsSnap = none`). -/
def settingsOf (settingsSnap : Option Settings) : Settings :=
  match settingsSnap with
  | some data => data
  | none => defaultSettings

/-- The locals of `runVerificationChecks` as lines 479-483 initialise them. -/
def initialState : CheckState :=
  { isLocationOk := false, isIpOk := false, isVpnOk := false, reasons := [],
    proof := { geo := none, ip := none }, effects := [] }

/-- The function `runVerificationChecks`. Its inputs are what the call reads from
outside: the allow-list `ALLOWED_IPS`, the settings snapshot that `getDoc` resolves
with, the clock, and what the awaited `getGeolocation()` and `getIpInfo()` settle
with (they are consulted only on the path that calls them). The calls of the
callback `setStatus` are recorded among the effects, with the updater passed. -/
def runVerificationChecks (M : JsHost) (allowedIps : List String)
    (settingsSnap : Option Settings) (now : Now)
    (geo : Except JsError Coords) (net : Except JsError IpInfo) : Run :=
  let settings := settingsOf settingsSnap
  let s1 := policyCheck settings now initialState
  if s1.reasons.length > 0 then
    { verdict := { success := false, reasons := s1.reasons, proof := s1.proof }
      effects := s1.effects }
  else
    let s2 := geolocationCheck M geo s1
    let s3 := networkCheck allowedIps net s2
    { verdict :=
        { success := s3.isLocationOk && s3.isIpOk && s3.isVpnOk
          reasons := s3.reasons
          proof := s3.proof }
      effects := s3.effects }

/-- A stand-in host, used only to evaluate what does not depend on the host (runs in
which the policy check or the location service fails, and the text that `toFixed`
gives for a coordinate): `NaN` for every function of `Math`, binary64 products and
sums. -/
def nanHost : JsHost :=
  { mul := JsNum.mul
    div := fun _ _ => JsNum.nan
    add := JsNum.add
    sub := fun _ _ => JsNum.nan
    sin := fun _ => JsNum.nan
    cos := fun _ => JsNum.nan
    sqrt := fun _ => JsNum.nan
    atan2 := fun _ _ => JsNum.nan
    numberToString := fun _ => "" }

/-- The state in which the probes start when both policy checks have passed. -/
def passedState : CheckState :=
  { initialState with effects := [Effect.getDoc] }

/-! ## The layout step of `toFixed`, and truncation -/

/-- The decimal text of `n / 10^fractionDigits`, as `toFixed` lays it out: the digits
of `n`, padded with zeros on the left to at least `fractionDigits + 1` digits, with
the point before the last `fractionDigits` of them (no point when there are none). -/
def fixedPoint (n fractionDigits : Nat) : String :=
  let digits := Nat.toDigits 10 n
  let m := List.replicate (fractionDigits + 1 - digits.length) '0' ++ digits
  let a := m.take (m.length - fractionDigits)
  let b := m.drop (m.length - fractionDigits)
  if fractionDigits = 0 then String.mk a else String.mk a ++ "." ++ String.mk b

/-- The text of `q` with the digits beyond decimal place `fractionDigits` dropped
instead of rounded: the same sign and layout as `toFixed`, on the integer part of
`|q| * 10^fractionDigits`. Not part of `App.js`: it states what truncation would give. -/
def truncatedFixed (q : ℚ) (fractionDigits : Nat) : String :=
  (if q < 0 then "-" else "") ++ fixedPoint ⌊|q| * (10 : ℚ) ^ fractionDigits⌋.toNat fractionDigits

/-! ## `handleCheckOut` (lines 192-217) -/

/-- The operator `a === b` on Numbers: `NaN` equals nothing. -/
def JsNum.strictEq : JsNum → JsNum → Bool
  | JsNum.fin a, JsNum.fin b => decide (a = b)
  | JsNum.posInf, JsNum.posInf => true
  | JsNum.negInf, JsNum.negInf => true
  | _, _ => false

/-- The function `parseInt(string)` without a radix: leading white space is skipped,
then an optional sign, then `0x`/`0X` selects radix 16 (radix 10 otherwise), then the
longest run of digits of that radix is read; `NaN` when that run is empty. The
integer is rounded to binary64. -/
def parseInt (string : String) : JsNum :=
  let s := string.toList.dropWhile isStrWhiteSpace
  let signed : Bool × List Char :=
    match s with
    | '-' :: t => (true, t)
    | '+' :: t => (false, t)
    | t => (false, t)
  let radixed : Nat × List Char :=
    match signed.2 with
    | '0' :: 'x' :: t => (16, t)
    | '0' :: 'X' :: t => (16, t)
    | t => (10, t)
  let z := radixed.2.takeWhile (fun c => (digitValue radixed.1 c).isSome)
  if z.isEmpty then JsNum.nan
  else
    match digitsValue radixed.1 z with
    | some v => if signed.1 then JsNum.round (-(v : ℚ)) else JsNum.round (v : ℚ)
    | none => JsNum.nan

/-- The field of the settings document `settings/config` that `handleCheckOut` reads. -/
structure CheckOutSettings where
  checkOutTime : String
  deriving DecidableEq

/-- The settings line 196 works with: the data of the settings document, or
`{ checkOutTime: "17:00" }` when `settingsSnap.exists()` is false. -/
def checkOutSettingsOf (settingsSnap : Option CheckOutSettings) : CheckOutSettings :=
  match settingsSnap with
  | some data => data
  | none => { checkOutTime := "17:00" }

/-- What `handleCheckOut` does to the outside, in the order in which it does it. -/
inductive DashboardEffect where
  /-- The call `setIsProcessing(value)`. -/
  | setIsProcessing (value : Bool)
  /-- The call `getDoc(settingsRef)`. -/
  | getDoc
  /-- The call `alert(message)`. -/
  | alert (message : String)
  /-- The call `updateDoc(logRef, { status, checkOutTime })` on the log of the day. -/
  | updateDoc (status : String)
  /-- The call `setStatus(status)`. -/
  | setStatus (status : String)
  /-- The call `setVerificationStatus(value)`. -/
  | setVerificationStatus (value : VerificationStatus)
  deriving DecidableEq

/-- The result of one call of `handleCheckOut`: the component state `status` after it
and the effects had, in order. -/
structure CheckOutRun where
  status : String
  effects : List DashboardEffect
  deriving DecidableEq

/-- The progress object set at line 212 after a check-out. -/
def checkedOutStatus : VerificationStatus :=
  { geo := { state := "idle", message := "" }
    ip := { state := "idle", message := "" }
    vpn := { state := "idle", message := "" }
    final := { state := "idle", message := "Checked out successfully!" } }

/-- The condition of line 200, under which the check-out is refused. -/
def tooEarly (checkOutTime : String) (now : Now) : Bool :=
  let parts := split checkOutTime ':'
  let hour := parseInt (parts[0]?.getD "undefined")
  let minute := parseInt (parts[1]?.getD "undefined")
  JsNum.lt (JsNum.ofNat now.hours.val) hour ||
    (JsNum.strictEq (JsNum.ofNat now.hours.val) hour &&
      JsNum.lt (JsNum.ofNat now.minutes.val) minute)

/-- The function `handleCheckOut`. Its inputs are the settings snapshot that `getDoc`
resolves with, the clock, what the awaited `updateDoc` settles with (consulted only
when it is called) and the component state `status` before the call. A piece missing
from the split is `undefined`, which `parseInt` reads as the text `undefined`. -/
def handleCheckOut (settingsSnap : Option CheckOutSettings) (now : Now)
    (updateOutcome : Except JsError Unit) (status : String) : CheckOutRun :=
  let settings := checkOutSettingsOf settingsSnap
  if tooEarly settings.checkOutTime now then
    { status := status
      effects :=
        [DashboardEffect.setIsProcessing true, DashboardEffect.getDoc,
          DashboardEffect.alert ("You can only check out after " ++ settings.checkOutTime ++ "."),
          DashboardEffect.setIsProcessing false] }
  else
    match updateOutcome with
    | Except.ok _ =>
      { status := "Checked Out"
        effects :=
          [DashboardEffect.setIsProcessing true, DashboardEffect.getDoc,
            DashboardEffect.updateDoc "Checked Out", DashboardEffect.setStatus "Checked Out",
            DashboardEffect.setVerificationStatus checkedOutStatus,
            DashboardEffect.setIsProcessing false] }
    | Except.error error =>
      { status := status
        effects :=
          [DashboardEffect.setIsProcessing true, DashboardEffect.getDoc,
            DashboardEffect.updateDoc "Checked Out",
            DashboardEffect.alert ("Check-out failed: " ++ error.message),
            DashboardEffect.setIsProcessing false] }

/-- The text of a two-digit decimal field, as an input of type `time` writes it. -/
def twoDigits (n : Nat) : String :=
  String.mk [Nat.digitChar (n / 10), Nat.digitChar (n % 10)]

/-- The well-formed text `HH:MM` of the hour `HH` and the minute `MM`. -/
def hhmm (HH MM : Nat) : String :=
  twoDigits HH ++ ":" ++ twoDigits MM

/-! ## Laws of the host -/

/-- Facts about binary64 arithmetic and the functions of `Math` that `getDistance`
relies on, stated for a host. IEEE 754 arithmetic with rounding to nearest obeys the
arithmetic ones: the operators are commutative and commute with negation, a zero
operand gives a zero product or quotient, a difference of equals is zero, `0 + 0` and
`1 - 0` are exact, a result of magnitude at most `2^1000` is finite and at most twice
the exact one, and a `NaN` operand gives `NaN`. ECMAScript fixes `Math.sin(0)`,
`Math.sqrt(0)`, `Math.atan2(0, x)` for `x > 0` and the value `NaN` of `Math.sin`,
`Math.sqrt` and `Math.atan2` at `NaN`. That the sine is odd, the cosine of a finite
value a finite value in `[-1, 1]` and the square root of 1 positive holds for the
library of the engines in use, though the standard leaves these functions
implementation-approximated. -/
structure HostLaws (M : JsHost) : Prop where
  mul_comm : ∀ a b : JsNum, M.mul a b = M.mul b a
  sub_antisymm : ∀ a b : JsNum, M.sub a b = (M.sub b a).neg
  neg_mul : ∀ a b : JsNum, M.mul a.neg b = (M.mul a b).neg
  neg_div : ∀ a b : JsNum, M.div a.neg b = (M.div a b).neg
  sin_neg : ∀ a : JsNum, M.sin a.neg = (M.sin a).neg
  sub_self : ∀ x : ℚ, M.sub (JsNum.fin x) (JsNum.fin x) = JsNum.fin 0
  one_sub_zero : M.sub (JsNum.fin 1) (JsNum.fin 0) = JsNum.fin 1
  zero_add_zero : M.add (JsNum.fin 0) (JsNum.fin 0) = JsNum.fin 0
  zero_mul : ∀ x : ℚ, M.mul (JsNum.fin 0) (JsNum.fin x) = JsNum.fin 0
  zero_div : ∀ x : ℚ, x ≠ 0 → M.div (JsNum.fin 0) (JsNum.fin x) = JsNum.fin 0
  mul_finite : ∀ a b : ℚ, |a * b| ≤ 2 ^ 1000 →
    ∃ c : ℚ, M.mul (JsNum.fin a) (JsNum.fin b) = JsNum.fin c ∧ |c| ≤ 2 * |a * b|
  div_finite : ∀ a b : ℚ, b ≠ 0 → |a / b| ≤ 2 ^ 1000 →
    ∃ c : ℚ, M.div (JsNum.fin a) (JsNum.fin b) = JsNum.fin c ∧ |c| ≤ 2 * |a / b|
  sin_zero : M.sin (JsNum.fin 0) = JsNum.fin 0
  cos_finite : ∀ x : ℚ, ∃ c : ℚ, M.cos (JsNum.fin x) = JsNum.fin c ∧ |c| ≤ 1
  sqrt_zero : M.sqrt (JsNum.fin 0) = JsNum.fin 0
  sqrt_one : ∃ r : ℚ, 0 < r ∧ M.sqrt (JsNum.fin 1) = JsNum.fin r
  atan2_zero : ∀ x : ℚ, 0 < x → M.atan2 (JsNum.fin 0) (JsNum.fin x) = JsNum.fin 0
  mul_nan : ∀ b : JsNum, M.mul JsNum.nan b = JsNum.nan
  div_nan : ∀ b : JsNum, M.div JsNum.nan b = JsNum.nan
  add_nan : ∀ b : JsNum, M.add JsNum.nan b = JsNum.nan
  sub_nan : ∀ b : JsNum, M.sub JsNum.nan b = JsNum.nan
  sin_nan : M.sin JsNum.nan = JsNum.nan
  sqrt_nan : M.sqrt JsNum.nan = JsNum.nan
  atan2_nan : ∀ b : JsNum, M.atan2 JsNum.nan b = JsNum.nan

/-- The accuracy of the host on the operands that the one-kilometre computation of
`getDistance` meets, with a relative tolerance of `10^-6`. Binary64 arithmetic and
`Math.sqrt` are within `2^-53` of the exact result as long as it is in the normal
range, and the `Math.sin` and `Math.atan2` of the engines in use are within a few
units in the last place: all of them meet these bounds, though the standard does not
prescribe an accuracy for the functions of `Math`. -/
structure HostAccuracy (M : JsHost) : Prop where
  mul_near : ∀ a b : ℚ, 1 / 2 ^ 1000 ≤ |a * b| → |a * b| ≤ 2 ^ 1000 →
    ∃ c : ℚ, M.mul (JsNum.fin a) (JsNum.fin b) = JsNum.fin c ∧ |c - a * b| ≤ |a * b| / 10 ^ 6
  div_near : ∀ a b : ℚ, b ≠ 0 → 1 / 2 ^ 1000 ≤ |a / b| → |a / b| ≤ 2 ^ 1000 →
    ∃ c : ℚ, M.div (JsNum.fin a) (JsNum.fin b) = JsNum.fin c ∧ |c - a / b| ≤ |a / b| / 10 ^ 6
  add_near : ∀ a b : ℚ, 1 / 2 ^ 1000 ≤ |a + b| → |a + b| ≤ 2 ^ 1000 →
    ∃ c : ℚ, M.add (JsNum.fin a) (JsNum.fin b) = JsNum.fin c ∧ |c - (a + b)| ≤ |a + b| / 10 ^ 6
  sub_near : ∀ a b : ℚ, 1 / 2 ^ 1000 ≤ |a - b| → |a - b| ≤ 2 ^ 1000 →
    ∃ c : ℚ, M.sub (JsNum.fin a) (JsNum.fin b) = JsNum.fin c ∧ |c - (a - b)| ≤ |a - b| / 10 ^ 6
  sin_near : ∀ x : ℚ, 1 / 10 ^ 6 ≤ x → x ≤ 1 / 1000 →
    ∃ s : ℚ, M.sin (JsNum.fin x) = JsNum.fin s ∧
      |(s : ℝ) - Real.sin (x : ℝ)| ≤ Real.sin (x : ℝ) / 10 ^ 6
  sqrt_near : ∀ a : ℚ, 1 / 10 ^ 12 ≤ a → a ≤ 2 →
    ∃ r : ℚ, M.sqrt (JsNum.fin a) = JsNum.fin r ∧
      |(r : ℝ) - Real.sqrt (a : ℝ)| ≤ Real.sqrt (a : ℝ) / 10 ^ 6
  atan2_near : ∀ y x : ℚ, 1 / 2 ^ 500 ≤ y → 0 < x → x ≤ 2 ^ 500 → y ≤ x / 1000 →
    ∃ t : ℚ, M.atan2 (JsNum.fin y) (JsNum.fin x) = JsNum.fin t ∧
      |(t : ℝ) - Real.arctan ((y : ℝ) / (x : ℝ))| ≤ Real.arctan ((y : ℝ) / (x : ℝ)) / 10 ^ 6

/-- A square root correct to `10^-20`, by the integer square root. -/
def approxSqrt (a : ℚ) : ℚ :=
  (Nat.sqrt ⌊a * (10 : ℚ) ^ 40⌋.toNat : ℚ) / (10 : ℚ) ^ 20

/-- An idealised host, which shows that the laws of the host can be met together:
exact rational arithmetic (`NaN` as soon as an operand is not finite or a divisor is
zero), the small-angle values `sin x = x`, `cos x = 1` and `atan2(y, x) = y / x`, and
a square root correct to `10^-20`. -/
def smallAngleHost : JsHost :=
  { mul := fun a b =>
      match a, b with
      | JsNum.fin x, JsNum.fin y => JsNum.fin (x * y)
      | _, _ => JsNum.nan
    div := fun a b =>
      match a, b with
      | JsNum.fin x, JsNum.fin y => if y = 0 then JsNum.nan else JsNum.fin (x / y)
      | _, _ => JsNum.nan
    add := fun a b =>
      match a, b with
      | JsNum.fin x, JsNum.fin y => JsNum.fin (x + y)
      | _, _ => JsNum.nan
    sub := fun a b =>
      match a, b with
      | JsNum.fin x, JsNum.fin y => JsNum.fin (x - y)
      | _, _ => JsNum.nan
    sin := fun a => a
    cos := fun a =>
      match a with
      | JsNum.fin _ => JsNum.fin 1
      | _ => JsNum.nan
    sqrt := fun a =>
      match a with
      | JsNum.fin x => JsNum.fin (approxSqrt x)
      | _ => JsNum.nan
    atan2 := fun a b =>
      match a, b with
      | JsNum.fin y, JsNum.fin x => if x = 0 then JsNum.nan else JsNum.fin (y / x)
      | _, _ => JsNum.nan
    numberToString := fun _ => "" }

/-! ## Lemmas on the stages -/

theorem lt_ofNat (a b : Nat) : JsNum.lt (JsNum.ofNat a) (JsNum.ofNat b) = decide (a < b) := by
  simp [JsNum.lt, JsNum.ofNat]

theorem le_ofNat (a b : Nat) : JsNum.le (JsNum.ofNat a) (JsNum.ofNat b) = decide (a ≤ b) := by
  simp [JsNum.le, JsNum.ofNat]

theorem isTimeAllowed_ofNat (current start stop : Nat) :
    isTimeAllowed (JsNum.ofNat current) (JsNum.ofNat start) (JsNum.ofNat stop) =
      if stop < start then decide (start ≤ current) || decide (current ≤ stop)
      else decide (start ≤ current) && decide (current ≤ stop) := by
  simp [isTimeAllowed, JsNum.ge, lt_ofNat, le_ofNat]

theorem policyCheck_initialState (settings : Settings) (now : Now) :
    policyCheck settings now initialState =
      { initialState with
        reasons :=
          (if dayCheck settings now then [] else [dayReason]) ++
            (if timeCheck settings now then [] else [timeReason settings])
        effects := [Effect.getDoc] } := by
  cases hd : dayCheck settings now <;> cases ht : timeCheck settings now <;>
    simp [policyCheck, initialState, hd, ht]

/-- The geofence test of line 524 on the coordinates the probe resolved with. -/
theorem geolocationCheck_isLocationOk (M : JsHost) (geo : Except JsError Coords)
    (s : CheckState) :
    (geolocationCheck M geo s).isLocationOk =
      match geo with
      | Except.ok c =>
        JsNum.le
          (getDistance M (JsNum.fin c.latitude) (JsNum.fin c.longitude)
            (JsNum.fin OFFICE_COORDINATES.latitude) (JsNum.fin OFFICE_COORDINATES.longitude))
          ALLOWED_RADIUS_METERS
      | Except.error _ => s.isLocationOk := by
  cases geo <;> simp [geolocationCheck]

theorem run_of_policy_failed (M : JsHost) (allowedIps : List String)
    (settingsSnap : Option Settings) (now : Now)
    (geo : Except JsError Coords) (net : Except JsError IpInfo)
    (h : dayCheck (settingsOf settingsSnap) now = false ∨
      timeCheck (settingsOf settingsSnap) now = false) :
    runVerificationChecks M allowedIps settingsSnap now geo net =
      { verdict :=
          { success := false
            reasons :=
              (if dayCheck (settingsOf settingsSnap) now then [] else [dayReason]) ++
                (if timeCheck (settingsOf settingsSnap) now then []
                  else [timeReason (settingsOf settingsSnap)])
            proof := { geo := none, ip := none } }
        effects := [Effect.getDoc] } := by
  simp only [runVerificationChecks, policyCheck_initialState]
  cases hd : dayCheck (settingsOf settingsSnap) now <;>
    cases ht : timeCheck (settingsOf settingsSnap) now <;>
    simp_all [initialState]

theorem run_of_policy_passed (M : JsHost) (allowedIps : List String)
    (settingsSnap : Option Settings) (now : Now)
    (geo : Except JsError Coords) (net : Except JsError IpInfo)
    (hd : dayCheck (settingsOf settingsSnap) now = true)
    (ht : timeCheck (settingsOf settingsSnap) now = true) :
    runVerificationChecks M allowedIps settingsSnap now geo net =
      { verdict :=
          { success :=
              (networkCheck allowedIps net (geolocationCheck M geo passedState)).isLocationOk &&
              (networkCheck allowedIps net (geolocationCheck M geo passedState)).isIpOk &&
              (networkCheck allowedIps net (geolocationCheck M geo passedState)).isVpnOk
            reasons := (networkCheck allowedIps net (geolocationCheck M geo passedState)).reasons
            proof := (networkCheck allowedIps net (geolocationCheck M geo passedState)).proof }
        effects := (networkCheck allowedIps net (geolocationCheck M geo passedState)).effects } := by
  simp only [runVerificationChecks, policyCheck_initialState]
  simp [hd, ht, initialState, passedState]

theorem timeToMinutes_default_start : timeToMinutes "07:00" = JsNum.ofNat 420 := by
  decide!

theorem timeToMinutes_default_end : timeToMinutes "11:00" = JsNum.ofNat 660 := by
  decide!

theorem timeCheck_defaultSettings (now : Now) :
    timeCheck defaultSettings now =
      (decide (420 ≤ now.hours.val * 60 + now.minutes.val) &&
        decide (now.hours.val * 60 + now.minutes.val ≤ 660)) := by
  simp [timeCheck, defaultSettings, currentTimeInMinutes, timeToMinutes_default_start,
    timeToMinutes_default_end, isTimeAllowed_ofNat]

theorem dayCheck_defaultSettings_sun (now : Now) (h : now.day = Weekday.sun) :
    dayCheck defaultSettings now = false := by
  simp [dayCheck, h, dayName, AllowedDays.lookup, defaultSettings]

theorem dayReason_ne_timeReason (settings : Settings) : dayReason ≠ timeReason settings := by
  intro h
  have h2 := congrArg String.data h
  simp [dayReason, timeReason, String.data_append] at h2

theorem networkCheck_error (allowedIps : List String) (error : JsError) (s : CheckState) :
    networkCheck allowedIps (Except.error error) s =
      { s with
        effects :=
          s.effects ++ [Effect.getIpInfo] ++
            [Effect.setStatus
              [(Check.ip, { state := "fail", message := "Check Failed" }),
                (Check.vpn, { state := "fail", message := "Check Failed" })]]
        reasons := s.reasons ++ ["Network check failed"] } := by
  simp [networkCheck]

theorem geolocationCheck_isIpOk (M : JsHost) (geo : Except JsError Coords) (s : CheckState) :
    (geolocationCheck M geo s).isIpOk = s.isIpOk := by
  cases geo <;> simp [geolocationCheck]

theorem isTimeAllowed_nan_start (current stop : JsNum) :
    isTimeAllowed current JsNum.nan stop = false := by
  cases current <;> cases stop <;> simp [isTimeAllowed, JsNum.lt, JsNum.le, JsNum.ge]

theorem isTimeAllowed_nan_end (current start : JsNum) :
    isTimeAllowed current start JsNum.nan = false := by
  cases current <;> cases start <;> simp [isTimeAllowed, JsNum.lt, JsNum.le, JsNum.ge]

theorem networkCheck_isIpOk_nil (net : Except JsError IpInfo) (s : CheckState)
    (h : s.isIpOk = false) : (networkCheck [] net s).isIpOk = false := by
  cases net <;> simp [networkCheck, h]

theorem splitChars_ne_nil (sep : Char) (cs : List Char) : splitChars sep cs ≠ [] := by
  cases cs with
  | nil => simp [splitChars]
  | cons c cs =>
    unfold splitChars
    split
    · simp
    · split <;> simp

theorem toFixed_fin (M : JsHost) (q : ℚ) (fractionDigits : Nat) (h : |q| < (10 : ℚ) ^ 21) :
    toFixed M (JsNum.fin q) fractionDigits =
      (if q < 0 then "-" else "") ++
        fixedPoint ⌊|q| * (10 : ℚ) ^ fractionDigits + 1 / 2⌋.toNat fractionDigits := by
  have h2 : ¬ (10 : ℚ) ^ 21 ≤ |q| := not_le.mpr h
  simp only [toFixed, fixedPoint, h2, if_false]
  split <;> simp [String.append_assoc]

theorem round_half_up_nearest (x : ℚ) (hx : 0 ≤ x) :
    x - 1 / 2 < ((⌊x + 1 / 2⌋.toNat : ℕ) : ℚ) ∧ ((⌊x + 1 / 2⌋.toNat : ℕ) : ℚ) ≤ x + 1 / 2 := by
  have h0 : 0 ≤ ⌊x + 1 / 2⌋ := Int.floor_nonneg.mpr (by linarith)
  have hc : ((⌊x + 1 / 2⌋.toNat : ℕ) : ℚ) = ((⌊x + 1 / 2⌋ : ℤ) : ℚ) := by
    have := Int.toNat_of_nonneg h0
    exact_mod_cast congrArg (fun z : ℤ => (z : ℚ)) this
  rw [hc]
  constructor
  · have := Int.lt_floor_add_one (x + 1 / 2)
    linarith
  · exact Int.floor_le (x + 1 / 2)

theorem networkCheck_proof_geo (allowedIps : List String) (net : Except JsError IpInfo)
    (s : CheckState) : (networkCheck allowedIps net s).proof.geo = s.proof.geo := by
  cases net <;> simp [networkCheck]

theorem geolocationCheck_proof_geo (M : JsHost) (coords : Coords) (s : CheckState) :
    (geolocationCheck M (Except.ok coords) s).proof.geo =
      some (toFixed M (JsNum.fin coords.latitude) 4 ++ ", "
        ++ toFixed M (JsNum.fin coords.longitude) 4) := by
  simp [geolocationCheck]

theorem strictEq_ofNat (a b : Nat) :
    JsNum.strictEq (JsNum.ofNat a) (JsNum.ofNat b) = decide (a = b) := by
  simp [JsNum.strictEq, JsNum.ofNat]

theorem digitChar_ne_colon (d : Nat) (h : d < 10) : Nat.digitChar d ≠ ':' := by
  interval_cases d <;> decide

theorem split_hhmm (HH MM : Nat) (hHH : HH < 100) (hMM : MM < 100) :
    split (hhmm HH MM) ':' = [twoDigits HH, twoDigits MM] := by
  have h1 := digitChar_ne_colon (HH / 10) (by omega)
  have h2 := digitChar_ne_colon (HH % 10) (by omega)
  have h3 := digitChar_ne_colon (MM / 10) (by omega)
  have h4 := digitChar_ne_colon (MM % 10) (by omega)
  simp [split, hhmm, twoDigits, splitChars, h1, h2, h3, h4]

theorem parseInt_twoDigits (n : Nat) (h : n < 100) : parseInt (twoDigits n) = JsNum.ofNat n := by
  have key : ∀ k : Fin 100, parseInt (twoDigits k.val) = JsNum.ofNat k.val := by decide!
  exact key ⟨n, h⟩

theorem tooEarly_hhmm (HH MM : Nat) (hHH : HH < 100) (hMM : MM < 100) (now : Now) :
    tooEarly (hhmm HH MM) now =
      (decide (now.hours.val < HH) ||
        (decide (now.hours.val = HH) && decide (now.minutes.val < MM))) := by
  simp [tooEarly, split_hhmm HH MM hHH hMM, parseInt_twoDigits HH hHH, parseInt_twoDigits MM hMM, lt_ofNat,
    strictEq_ofNat]

theorem tooEarly_iff_minutes (HH MM : Nat) (hHH : HH < 100) (hMM : MM < 60) (now : Now) :
    tooEarly (hhmm HH MM) now = true ↔
      now.hours.val * 60 + now.minutes.val < HH * 60 + MM := by
  rw [tooEarly_hhmm HH MM hHH (by omega) now]
  have hm := now.minutes.isLt
  simp only [Bool.or_eq_true, Bool.and_eq_true, decide_eq_true_eq]
  omega

/-! ## Lemmas on the distance -/

theorem neg_neg_jsnum (a : JsNum) : a.neg.neg = a := by
  cases a <;> simp [JsNum.neg]

/-- Exchanging the two points negates both differences, and the result depends on them
through squares of sines and on the two latitudes through a commutative product. -/
theorem getDistance_symm (M : JsHost) (h : HostLaws M) (lat1 lon1 lat2 lon2 : JsNum) :
    getDistance M lat1 lon1 lat2 lon2 = getDistance M lat2 lon2 lat1 lon1 := by
  have hmul_neg : ∀ a b : JsNum, M.mul a b.neg = (M.mul a b).neg := fun a b => by
    rw [h.mul_comm a b.neg, h.neg_mul, h.mul_comm b a]
  have hsq : ∀ s : JsNum, M.mul s.neg s.neg = M.mul s s := fun s => by
    rw [h.neg_mul, hmul_neg, neg_neg_jsnum]
  have hcs : ∀ t s : JsNum, M.mul (M.mul t s.neg) s.neg = M.mul (M.mul t s) s := fun t s => by
    rw [hmul_neg t s, h.neg_mul, hmul_neg, neg_neg_jsnum]
  have hdelta : ∀ a b : JsNum,
      M.div (M.mul (M.sub a b) PI) (JsNum.ofNat 180) =
        (M.div (M.mul (M.sub b a) PI) (JsNum.ofNat 180)).neg := fun a b => by
    rw [h.sub_antisymm a b, h.neg_mul, h.neg_div]
  simp only [getDistance]
  rw [hdelta lat1 lat2, hdelta lon1 lon2, h.neg_div, h.neg_div, h.sin_neg, h.sin_neg, hsq, hcs,
    h.mul_comm (M.cos (M.div (M.mul lat2 PI) (JsNum.ofNat 180)))
      (M.cos (M.div (M.mul lat1 PI) (JsNum.ofNat 180)))]

theorem PI_bounds : ∃ p : ℚ, PI = JsNum.fin p ∧ 0 < p ∧ p ≤ 4 :=
  ⟨884279719003555 / 281474976710656, rfl, by norm_num, by norm_num⟩

/-- The conversion to radians of a finite latitude of magnitude at most `10^300` is
finite. -/
theorem radians_finite (M : JsHost) (h : HostLaws M) (lat : ℚ) (hlat : |lat| ≤ 10 ^ 300) :
    ∃ r : ℚ, M.div (M.mul (JsNum.fin lat) PI) (JsNum.ofNat 180) = JsNum.fin r := by
  obtain ⟨p, hp, hp0, hp4⟩ := PI_bounds
  have h1 : |lat * p| ≤ 4 * 10 ^ 300 := by
    rw [abs_mul, abs_of_pos hp0]
    nlinarith [abs_nonneg lat]
  obtain ⟨c, hc, hcb⟩ := h.mul_finite lat p (h1.trans (by norm_num))
  have h2 : |c / 180| ≤ 2 ^ 1000 := by
    rw [abs_div]
    have : |c| ≤ 8 * 10 ^ 300 := by linarith
    have h180 : |(180 : ℚ)| = 180 := abs_of_pos (by norm_num)
    rw [h180, div_le_iff₀ (by norm_num)]
    exact this.trans (by norm_num)
  obtain ⟨r, hr, _⟩ := h.div_finite c 180 (by norm_num) h2
  exact ⟨r, by rw [hp, hc]; simpa [JsNum.ofNat] using hr⟩

/-- From a finite point to itself both differences are 0, so that `a` is 0 and the
angle is `atan2(0, sqrt(1))`. -/
theorem getDistance_self (M : JsHost) (h : HostLaws M) (lat lon : ℚ)
    (hlat : |lat| ≤ 10 ^ 300) :
    getDistance M (JsNum.fin lat) (JsNum.fin lon) (JsNum.fin lat) (JsNum.fin lon) =
      JsNum.fin 0 := by
  obtain ⟨p, hp, hp0, _⟩ := PI_bounds
  obtain ⟨r, hr⟩ := radians_finite M h lat hlat
  obtain ⟨c, hc, hc1⟩ := h.cos_finite r
  have hcc : |c * c| ≤ 2 ^ 1000 := by
    rw [abs_mul]
    have : |c| * |c| ≤ 1 := by nlinarith [abs_nonneg c]
    exact this.trans (by norm_num)
  obtain ⟨cc, hcc', _⟩ := h.mul_finite c c hcc
  obtain ⟨s, hs0, hs⟩ := h.sqrt_one
  have hmz : ∀ x : ℚ, M.mul (JsNum.fin x) (JsNum.fin 0) = JsNum.fin 0 := fun x => by
    rw [h.mul_comm, h.zero_mul]
  have h180 : JsNum.ofNat 180 = JsNum.fin 180 := by simp [JsNum.ofNat]
  have hone : JsNum.ofNat 1 = JsNum.fin 1 := by simp [JsNum.ofNat]
  have htwo : JsNum.ofNat 2 = JsNum.fin 2 := by simp [JsNum.ofNat]
  have hR : JsNum.ofNat 6371000 = JsNum.fin 6371000 := by simp [JsNum.ofNat]
  rw [h180] at hr
  have hzero : M.div (M.mul (JsNum.fin 0) PI) (JsNum.fin 180) = JsNum.fin 0 := by
    rw [hp, h.zero_mul]
    exact h.zero_div 180 (by norm_num)
  have hhalf : M.div (JsNum.fin 0) (JsNum.fin 2) = JsNum.fin 0 := h.zero_div 2 (by norm_num)
  simp only [getDistance, h180, hone, htwo, hR, h.sub_self, hzero, hhalf, h.sin_zero, hr, hc,
    hcc', hmz, h.zero_mul,
    h.zero_add_zero, h.sqrt_zero, hone, htwo, hR, h.one_sub_zero, hs, h.atan2_zero s hs0]


/-- A latitude that is `NaN` makes `a`, the angle and the distance `NaN`. -/
theorem getDistance_nan (M : JsHost) (h : HostLaws M) (lon : JsNum) :
    getDistance M JsNum.nan lon JsNum.nan lon = JsNum.nan := by
  have hmn : ∀ a : JsNum, M.mul a JsNum.nan = JsNum.nan := fun a => by
    rw [h.mul_comm, h.mul_nan]
  simp only [getDistance, h.sub_nan, h.mul_nan, h.div_nan, h.sin_nan, h.add_nan, h.sqrt_nan,
    h.atan2_nan, hmn]

/-- A value within `10^-6` of a positive exact result, relative to it, lies within the
widened bounds of that result. -/
theorem near_bounds {c e lo hi : ℚ} (h : |c - e| ≤ |e| / 10 ^ 6) (hlo : lo ≤ e) (hhi : e ≤ hi)
    (hpos : 0 < lo) : lo * (1 - 1 / 10 ^ 6) ≤ c ∧ c ≤ hi * (1 + 1 / 10 ^ 6) := by
  have he : 0 < e := lt_of_lt_of_le hpos hlo
  rw [abs_of_pos he] at h
  obtain ⟨h1, h2⟩ := abs_le.mp h
  constructor <;> nlinarith

theorem near_bounds_real {c e lo hi : ℝ} (h : |c - e| ≤ e / 10 ^ 6) (hlo : lo ≤ e)
    (hhi : e ≤ hi) : lo * (1 - 1 / 10 ^ 6) ≤ c ∧ c ≤ hi * (1 + 1 / 10 ^ 6) := by
  obtain ⟨h1, h2⟩ := abs_le.mp h
  constructor <;> nlinarith

theorem arctan_nonneg_of_nonneg {r : ℝ} (hr : 0 ≤ r) : 0 ≤ Real.arctan r := by
  have h := Real.arctan_strictMono.monotone hr
  rwa [Real.arctan_zero] at h

theorem arctan_le_self_of_nonneg {r : ℝ} (hr : 0 ≤ r) : Real.arctan r ≤ r := by
  have h1 : 0 ≤ Real.arctan r := arctan_nonneg_of_nonneg hr
  have h2 := Real.le_tan h1 (Real.arctan_lt_pi_div_two r)
  rwa [Real.tan_arctan] at h2

/-- A lower bound of the arc tangent at a non-negative argument. -/
theorem le_arctan_of_nonneg {r : ℝ} (hr : 0 ≤ r) : r * (1 - r ^ 2 / 2) ≤ Real.arctan r := by
  have h0 : 0 ≤ Real.arctan r := arctan_nonneg_of_nonneg hr
  have hle : Real.arctan r ≤ r := arctan_le_self_of_nonneg hr
  have hcos : 0 < Real.cos (Real.arctan r) := Real.cos_arctan_pos r
  have htan : Real.tan (Real.arctan r) = r := Real.tan_arctan r
  rw [Real.tan_eq_sin_div_cos, div_eq_iff hcos.ne'] at htan
  have hsin : Real.sin (Real.arctan r) ≤ Real.arctan r := Real.sin_le h0
  have hc : 1 - Real.arctan r ^ 2 / 2 ≤ Real.cos (Real.arctan r) :=
    Real.one_sub_sq_div_two_le_cos
  have hc2 : 1 - r ^ 2 / 2 ≤ Real.cos (Real.arctan r) := by nlinarith
  nlinarith

/-- A lower bound of the sine on `[0, 1/1000]`. -/
theorem le_sin_of_small {x : ℝ} (h0 : 0 ≤ x) (h1 : x ≤ 1 / 1000) :
    x * (1 - 1 / (4 * 10 ^ 6)) ≤ Real.sin x := by
  rcases h0.eq_or_lt with rfl | hpos
  · simp
  · have := Real.sin_gt_sub_cube hpos (by linarith)
    have hx2 : x ^ 2 ≤ 1 / 10 ^ 6 := by nlinarith
    nlinarith

/-- One product of the host, enclosed: if the exact product lies in `[lo, hi]`, the
result is finite and lies in `[lo (1 - 10^-6), hi (1 + 10^-6)]`. The lemmas that
follow do the same for the other operations. -/
theorem mul_step (M : JsHost) (ha : HostAccuracy M) (a b lo hi : ℚ) (hlo : lo ≤ a * b)
    (hhi : a * b ≤ hi) (hmin : 1 / 2 ^ 1000 ≤ lo) (hmax : hi ≤ 2 ^ 1000) :
    ∃ c : ℚ, M.mul (JsNum.fin a) (JsNum.fin b) = JsNum.fin c ∧
      lo * (1 - 1 / 10 ^ 6) ≤ c ∧ c ≤ hi * (1 + 1 / 10 ^ 6) := by
  have hpos : 0 < lo := lt_of_lt_of_le (by positivity) hmin
  have he : |a * b| = a * b := abs_of_pos (lt_of_lt_of_le hpos hlo)
  obtain ⟨c, hc, hn⟩ := ha.mul_near a b (by rw [he]; linarith) (by rw [he]; linarith)
  exact ⟨c, hc, near_bounds hn hlo hhi hpos⟩

theorem div_step (M : JsHost) (ha : HostAccuracy M) (a b lo hi : ℚ) (hb : b ≠ 0)
    (hlo : lo ≤ a / b) (hhi : a / b ≤ hi) (hmin : 1 / 2 ^ 1000 ≤ lo) (hmax : hi ≤ 2 ^ 1000) :
    ∃ c : ℚ, M.div (JsNum.fin a) (JsNum.fin b) = JsNum.fin c ∧
      lo * (1 - 1 / 10 ^ 6) ≤ c ∧ c ≤ hi * (1 + 1 / 10 ^ 6) := by
  have hpos : 0 < lo := lt_of_lt_of_le (by positivity) hmin
  have he : |a / b| = a / b := abs_of_pos (lt_of_lt_of_le hpos hlo)
  obtain ⟨c, hc, hn⟩ := ha.div_near a b hb (by rw [he]; linarith) (by rw [he]; linarith)
  exact ⟨c, hc, near_bounds hn hlo hhi hpos⟩

theorem add_step (M : JsHost) (ha : HostAccuracy M) (a b lo hi : ℚ) (hlo : lo ≤ a + b)
    (hhi : a + b ≤ hi) (hmin : 1 / 2 ^ 1000 ≤ lo) (hmax : hi ≤ 2 ^ 1000) :
    ∃ c : ℚ, M.add (JsNum.fin a) (JsNum.fin b) = JsNum.fin c ∧
      lo * (1 - 1 / 10 ^ 6) ≤ c ∧ c ≤ hi * (1 + 1 / 10 ^ 6) := by
  have hpos : 0 < lo := lt_of_lt_of_le (by positivity) hmin
  have he : |a + b| = a + b := abs_of_pos (lt_of_lt_of_le hpos hlo)
  obtain ⟨c, hc, hn⟩ := ha.add_near a b (by rw [he]; linarith) (by rw [he]; linarith)
  exact ⟨c, hc, near_bounds hn hlo hhi hpos⟩

theorem sub_step (M : JsHost) (ha : HostAccuracy M) (a b lo hi : ℚ) (hlo : lo ≤ a - b)
    (hhi : a - b ≤ hi) (hmin : 1 / 2 ^ 1000 ≤ lo) (hmax : hi ≤ 2 ^ 1000) :
    ∃ c : ℚ, M.sub (JsNum.fin a) (JsNum.fin b) = JsNum.fin c ∧
      lo * (1 - 1 / 10 ^ 6) ≤ c ∧ c ≤ hi * (1 + 1 / 10 ^ 6) := by
  have hpos : 0 < lo := lt_of_lt_of_le (by positivity) hmin
  have he : |a - b| = a - b := abs_of_pos (lt_of_lt_of_le hpos hlo)
  obtain ⟨c, hc, hn⟩ := ha.sub_near a b (by rw [he]; linarith) (by rw [he]; linarith)
  exact ⟨c, hc, near_bounds hn hlo hhi hpos⟩

theorem sin_step (M : JsHost) (ha : HostAccuracy M) (x lo hi : ℚ) (hlo : lo ≤ x) (hhi : x ≤ hi)
    (hmin1 : 1 / 10 ^ 6 ≤ lo) (hmax : hi ≤ 1 / 1000) :
    ∃ s : ℚ, M.sin (JsNum.fin x) = JsNum.fin s ∧
      lo * (1 - 1 / (4 * 10 ^ 6)) * (1 - 1 / 10 ^ 6) ≤ s ∧ s ≤ hi * (1 + 1 / 10 ^ 6) := by
  have hmin : 0 ≤ lo := le_trans (by norm_num) hmin1
  obtain ⟨s, hs, hn⟩ := ha.sin_near x (hmin1.trans hlo) (hhi.trans hmax)
  have hx0 : (0 : ℝ) ≤ (x : ℝ) := by exact_mod_cast hmin.trans hlo
  have hx1 : (x : ℝ) ≤ 1 / 1000 := by
    have h' := (Rat.cast_le (K := ℝ)).mpr (hhi.trans hmax)
    push_cast at h'
    exact h'
  have hloR : (lo : ℝ) ≤ (x : ℝ) := by exact_mod_cast hlo
  have hhiR : (x : ℝ) ≤ (hi : ℝ) := by exact_mod_cast hhi
  have hmin' : (0 : ℝ) ≤ (lo : ℝ) := by exact_mod_cast hmin
  have h1 : (lo : ℝ) * (1 - 1 / (4 * 10 ^ 6)) ≤ Real.sin x :=
    le_trans (by nlinarith) (le_sin_of_small hx0 hx1)
  have h2 : Real.sin x ≤ (hi : ℝ) := (Real.sin_le hx0).trans hhiR
  obtain ⟨h3, h4⟩ := near_bounds_real hn h1 h2
  refine ⟨s, hs, ?_, ?_⟩
  · have : ((lo * (1 - 1 / (4 * 10 ^ 6)) * (1 - 1 / 10 ^ 6) : ℚ) : ℝ) ≤ (s : ℝ) := by
      push_cast
      linarith
    exact_mod_cast this
  · have : (s : ℝ) ≤ ((hi * (1 + 1 / 10 ^ 6) : ℚ) : ℝ) := by
      push_cast
      linarith
    exact_mod_cast this

theorem sqrt_step (M : JsHost) (ha : HostAccuracy M) (a lo hi : ℚ) (hlo : lo ^ 2 ≤ a)
    (hhi : a ≤ hi ^ 2) (hhi0 : 0 ≤ hi) (hmin : 1 / 10 ^ 12 ≤ a) (hmax : a ≤ 2) :
    ∃ r : ℚ, M.sqrt (JsNum.fin a) = JsNum.fin r ∧
      lo * (1 - 1 / 10 ^ 6) ≤ r ∧ r ≤ hi * (1 + 1 / 10 ^ 6) := by
  obtain ⟨r, hr, hn⟩ := ha.sqrt_near a hmin hmax
  have h1 : (lo : ℝ) ≤ Real.sqrt (a : ℝ) := by
    apply Real.le_sqrt_of_sq_le
    exact_mod_cast hlo
  have h2 : Real.sqrt (a : ℝ) ≤ (hi : ℝ) := by
    rw [Real.sqrt_le_left (by exact_mod_cast hhi0)]
    exact_mod_cast hhi
  obtain ⟨h3, h4⟩ := near_bounds_real hn h1 h2
  refine ⟨r, hr, ?_, ?_⟩
  · have : ((lo * (1 - 1 / 10 ^ 6) : ℚ) : ℝ) ≤ (r : ℝ) := by
      push_cast
      linarith
    exact_mod_cast this
  · have : (r : ℝ) ≤ ((hi * (1 + 1 / 10 ^ 6) : ℚ) : ℝ) := by
      push_cast
      linarith
    exact_mod_cast this

theorem atan2_step (M : JsHost) (ha : HostAccuracy M) (y x lo hi : ℚ) (hx : 0 < x)
    (hlo : lo * x ≤ y) (hhi : y ≤ hi * x) (hlo0 : 0 ≤ lo) (hhi1 : hi ≤ 1 / 1000)
    (hymin : 1 / 2 ^ 500 ≤ y) (hxmax : x ≤ 2 ^ 500) :
    ∃ t : ℚ, M.atan2 (JsNum.fin y) (JsNum.fin x) = JsNum.fin t ∧
      lo * (1 - 1 / (2 * 10 ^ 6)) * (1 - 1 / 10 ^ 6) ≤ t ∧ t ≤ hi * (1 + 1 / 10 ^ 6) := by
  have hyx : y ≤ x / 1000 := by
    rw [le_div_iff₀ (by norm_num)]
    nlinarith
  obtain ⟨t, ht, hn⟩ := ha.atan2_near y x hymin hx hxmax hyx
  have hxR : (0 : ℝ) < (x : ℝ) := by exact_mod_cast hx
  have hloR : (lo : ℝ) ≤ (y : ℝ) / (x : ℝ) := by
    rw [le_div_iff₀ hxR]
    exact_mod_cast hlo
  have hhiR : (y : ℝ) / (x : ℝ) ≤ (hi : ℝ) := by
    rw [div_le_iff₀ hxR]
    exact_mod_cast hhi
  have hlo0R : (0 : ℝ) ≤ (lo : ℝ) := by exact_mod_cast hlo0
  have hhi1R : (hi : ℝ) ≤ 1 / 1000 := by
    have h' := (Rat.cast_le (K := ℝ)).mpr hhi1
    push_cast at h'
    exact h'
  have hr0 : (0 : ℝ) ≤ (y : ℝ) / (x : ℝ) := hlo0R.trans hloR
  have hsq : ((y : ℝ) / (x : ℝ)) ^ 2 ≤ 1 / 10 ^ 6 := by nlinarith
  have h1 : (lo : ℝ) * (1 - 1 / (2 * 10 ^ 6)) ≤ Real.arctan ((y : ℝ) / (x : ℝ)) :=
    le_trans (by nlinarith) (le_arctan_of_nonneg hr0)
  have h2 : Real.arctan ((y : ℝ) / (x : ℝ)) ≤ (hi : ℝ) :=
    (arctan_le_self_of_nonneg hr0).trans hhiR
  obtain ⟨h3, h4⟩ := near_bounds_real hn h1 h2
  refine ⟨t, ht, ?_, ?_⟩
  · have : ((lo * (1 - 1 / (2 * 10 ^ 6)) * (1 - 1 / 10 ^ 6) : ℚ) : ℝ) ≤ (t : ℝ) := by
      push_cast
      linarith
    exact_mod_cast this
  · have : (t : ℝ) ≤ ((hi * (1 + 1 / 10 ^ 6) : ℚ) : ℝ) := by
      push_cast
      linarith
    exact_mod_cast this

/-- The distance from the double nearest to -6.3110 to the office latitude, at the
office longitude: every operation is enclosed in turn, as `getDistance` performs them. -/
theorem getDistance_one_km (M : JsHost) (h : HostLaws M) (ha : HostAccuracy M) :
    ∃ d : ℚ,
      getDistance M (JsNum.fin (-888194289010475 / 140737488355328)) (JsNum.fin (7504967304036221 / 70368744177664))
        (JsNum.fin (-886927651615277 / 140737488355328)) (JsNum.fin (7504967304036221 / 70368744177664)) = JsNum.fin d ∧
      1000 < d ∧ d < 1001 := by
  have hPI : PI = JsNum.fin (884279719003555 / 281474976710656) := rfl
  have h180 : JsNum.ofNat 180 = JsNum.fin 180 := by simp [JsNum.ofNat]
  have hone : JsNum.ofNat 1 = JsNum.fin 1 := by simp [JsNum.ofNat]
  have htwo : JsNum.ofNat 2 = JsNum.fin 2 := by simp [JsNum.ofNat]
  have hR : JsNum.ofNat 6371000 = JsNum.fin 6371000 := by simp [JsNum.ofNat]
  obtain ⟨r1, hr1⟩ := radians_finite M h (-888194289010475 / 140737488355328)
    (by rw [abs_le]; constructor <;> norm_num)
  obtain ⟨r2, hr2⟩ := radians_finite M h (-886927651615277 / 140737488355328)
    (by rw [abs_le]; constructor <;> norm_num)
  rw [hPI, h180] at hr1 hr2
  obtain ⟨c1, hc1, hc1b⟩ := h.cos_finite r1
  obtain ⟨c2, hc2, hc2b⟩ := h.cos_finite r2
  have hc12 : |c1 * c2| ≤ 2 ^ 1000 := by
    rw [abs_mul]
    have : |c1| * |c2| ≤ 1 := by nlinarith [abs_nonneg c1, abs_nonneg c2]
    exact this.trans (by norm_num)
  obtain ⟨cc, hcc, -⟩ := h.mul_finite c1 c2 hc12
  have hmz : ∀ x : ℚ, M.mul (JsNum.fin x) (JsNum.fin 0) = JsNum.fin 0 := fun x => by
    rw [h.mul_comm, h.zero_mul]
  have hzero : M.div (M.mul (JsNum.fin 0) (JsNum.fin (884279719003555 / 281474976710656)))
      (JsNum.fin 180) = JsNum.fin 0 := by
    rw [h.zero_mul]
    exact h.zero_div 180 (by norm_num)
  have hhalf : M.div (JsNum.fin 0) (JsNum.fin 2) = JsNum.fin 0 := h.zero_div 2 (by norm_num)
  obtain ⟨δ, hδ, hδ1, hδ2⟩ := sub_step M ha (-886927651615277 / 140737488355328) (-888194289010475 / 140737488355328)
    (633318697599 / 70368744177664 : ℚ) (633318697599 / 70368744177664 : ℚ) (by norm_num) (by norm_num) (by norm_num) (by norm_num)
  have hδL : (449999550000017 / 50000000000000000 : ℚ) ≤ δ := le_trans (by norm_num) hδ1
  have hδU : δ ≤ (180000180000007 / 20000000000000000 : ℚ) := le_trans hδ2 (by norm_num)
  obtain ⟨p, hp, hp1, hp2⟩ := mul_step M ha δ (884279719003555 / 281474976710656)
    (282743056079753 / 10000000000000000 : ℚ) (8835738173951 / 312500000000000 : ℚ) (by linarith) (by linarith) (by norm_num) (by norm_num)
  have hpL : (35342846667087 / 1250000000000000 : ℚ) ≤ p := le_trans (by norm_num) hp1
  have hpU : p ≤ (141371952155027 / 5000000000000000 : ℚ) := le_trans hp2 (by norm_num)
  obtain ⟨q, hq, hq1, hq2⟩ := div_step M ha p 180
    (78539659260193 / 500000000000000000 : ℚ) (157079946838919 / 1000000000000000000 : ℚ) (by norm_num) (by linarith) (by linarith) (by norm_num) (by norm_num)
  have hqL : (157079161441067 / 1000000000000000000 : ℚ) ≤ q := le_trans (by norm_num) hq1
  have hqU : q ≤ (78540051959433 / 500000000000000000 : ℚ) := le_trans hq2 (by norm_num)
  obtain ⟨g, hg, hg1, hg2⟩ := div_step M ha q 2
    (157079161441067 / 2000000000000000000 : ℚ) (78540051959433 / 1000000000000000000 : ℚ) (by norm_num) (by linarith) (by linarith) (by norm_num) (by norm_num)
  have hgL : (785395021809527 / 10000000000000000000 : ℚ) ≤ g := le_trans (by norm_num) hg1
  have hgU : g ≤ (15708026099897 / 200000000000000000 : ℚ) := le_trans hg2 (by norm_num)
  obtain ⟨s, hs, hs1, hs2⟩ := sin_step M ha g
    (785395021809527 / 10000000000000000000 : ℚ) (15708026099897 / 200000000000000000 : ℚ) hgL hgU (by norm_num) (by norm_num)
  have hsL : (392697020032973 / 5000000000000000000 : ℚ) ≤ s := le_trans (by norm_num) hs1
  have hsU : s ≤ (157080418079231 / 2000000000000000000 : ℚ) := le_trans hs2 (by norm_num)
  have hs0 : (0 : ℚ) ≤ s := le_trans (by norm_num) hsL
  have hss1 : (392697020032973 / 5000000000000000000 : ℚ) * (392697020032973 / 5000000000000000000 : ℚ) ≤ s * s := mul_le_mul hsL hsL (by norm_num) hs0
  have hss2 : s * s ≤ (157080418079231 / 2000000000000000000 : ℚ) * (157080418079231 / 2000000000000000000 : ℚ) := mul_le_mul hsU hsU hs0 (by norm_num)
  obtain ⟨t, ht, ht1, ht2⟩ := mul_step M ha s s
    (154210949542777 / 25000000000000000000000 : ℚ) (616856443598651 / 100000000000000000000000 : ℚ) (le_trans (by norm_num) hss1) (le_trans hss2 (by norm_num))
    (by norm_num) (by norm_num)
  have htL : (616843181327309 / 100000000000000000000000 : ℚ) ≤ t := le_trans (by norm_num) ht1
  have htU : t ≤ (123371412091019 / 20000000000000000000000 : ℚ) := le_trans ht2 (by norm_num)
  obtain ⟨v, hv, hv1, hv2⟩ := add_step M ha t 0
    (616843181327309 / 100000000000000000000000 : ℚ) (123371412091019 / 20000000000000000000000 : ℚ) (by linarith) (by linarith) (by norm_num) (by norm_num)
  have hvL : (616842564484127 / 100000000000000000000000 : ℚ) ≤ v := le_trans (by norm_num) hv1
  have hvU : v ≤ (154214419328039 / 25000000000000000000000 : ℚ) := le_trans hv2 (by norm_num)
  obtain ⟨y, hy, hy1, hy2⟩ := sqrt_step M ha v
    (785392469278651 / 10000000000000000000 : ℚ) (392701830600561 / 5000000000000000000 : ℚ) (le_trans (by norm_num) hvL) (le_trans hvU (by norm_num))
    (by norm_num) (le_trans (by norm_num) hvL) (le_trans hvU (by norm_num))
  have hyL : (785391683886181 / 10000000000000000000 : ℚ) ≤ y := le_trans (by norm_num) hy1
  have hyU : y ≤ (49087777912799 / 625000000000000000 : ℚ) := le_trans hy2 (by norm_num)
  obtain ⟨w, hw, hw1, hw2⟩ := sub_step M ha 1 v
    (999999993831423 / 1000000000000000 : ℚ) (39999999753263 / 40000000000000 : ℚ) (by linarith) (by linarith) (by norm_num) (by norm_num)
  have hwL : (999998993831429 / 1000000000000000 : ℚ) ≤ w := le_trans (by norm_num) hw1
  have hwU : w ≤ (100000099383157 / 100000000000000 : ℚ) := le_trans hw2 (by norm_num)
  obtain ⟨x, hx, hx1, hx2⟩ := sqrt_step M ha w
    (999998993831429 / 1000000000000000 : ℚ) (1000001 / 1000000 : ℚ) (le_trans (by norm_num) hwL) (le_trans hwU (by norm_num))
    (by norm_num) (le_trans (by norm_num) hwL) (le_trans hwU (by norm_num))
  have hxL : (199999598766487 / 200000000000000 : ℚ) ≤ x := le_trans (by norm_num) hx1
  have hxU : x ≤ (1000002000001 / 1000000000000 : ℚ) := le_trans hx2 (by norm_num)
  obtain ⟨θ, hθ, hθ1, hθ2⟩ := atan2_step M ha y x
    (785390113105169 / 10000000000000000000 : ℚ) (98175752782609 / 1250000000000000000 : ℚ) (lt_of_lt_of_le (by norm_num) hxL) (by linarith) (by linarith)
    (by norm_num) (by norm_num) (le_trans (by norm_num) hyL) (le_trans hxU (by norm_num))
  have hθL : (98173616877549 / 1250000000000000000 : ℚ) ≤ θ := le_trans (by norm_num) hθ1
  have hθU : θ ≤ (157081361533379 / 2000000000000000000 : ℚ) := le_trans hθ2 (by norm_num)
  obtain ⟨c, hc, hcA, hcB⟩ := mul_step M ha 2 θ
    (78538893502039 / 500000000000000000 : ℚ) (157081361533379 / 1000000000000000000 : ℚ) (by linarith) (by linarith) (by norm_num) (by norm_num)
  have hcL : (15707762992629 / 100000000000000000 : ℚ) ≤ c := le_trans (by norm_num) hcA
  have hcU : c ≤ (157081518614741 / 1000000000000000000 : ℚ) := le_trans hcB (by norm_num)
  obtain ⟨d, hd, hd1, hd2⟩ := mul_step M ha 6371000 c
    (100074158026039 / 100000000000 : ℚ) (25019158877363 / 25000000000 : ℚ) (by linarith) (by linarith) (by norm_num) (by norm_num)
  have hdL : (2501851448797 / 2500000000 : ℚ) ≤ d := le_trans (by norm_num) hd1
  have hdU : d ≤ (12509591948261 / 12500000000 : ℚ) := le_trans hd2 (by norm_num)
  refine ⟨d, ?_, lt_of_lt_of_le (by norm_num) hdL, lt_of_le_of_lt hdU (by norm_num)⟩
  simp only [getDistance, hPI, h180, hone, htwo, hR, h.sub_self, hzero, hhalf, h.sin_zero, hr1,
    hr2, hc1, hc2, hcc, hmz, hδ, hp, hq, hg, hs, ht, hv, hy, hw, hx, hθ, hc, hd]

/-- The idealised host meets the laws of the host. -/
theorem smallAngleHost_laws : HostLaws smallAngleHost where
  mul_comm := fun a b => by
    cases a <;> cases b <;> simp [smallAngleHost, mul_comm]
  sub_antisymm := fun a b => by
    cases a <;> cases b <;> simp [smallAngleHost, JsNum.neg]
  neg_mul := fun a b => by
    cases a <;> cases b <;> simp [smallAngleHost, JsNum.neg]
  neg_div := fun a b => by
    cases a <;> cases b <;> simp [smallAngleHost, JsNum.neg]
    split <;> simp [JsNum.neg, neg_div]
  sin_neg := fun a => rfl
  sub_self := fun x => by simp [smallAngleHost]
  one_sub_zero := by simp [smallAngleHost]
  zero_add_zero := by simp [smallAngleHost]
  zero_mul := fun x => by simp [smallAngleHost]
  zero_div := fun x hx => by simp [smallAngleHost, hx]
  mul_finite := fun a b _ => ⟨a * b, rfl, by linarith [abs_nonneg (a * b)]⟩
  div_finite := fun a b hb _ => ⟨a / b, by simp [smallAngleHost, hb], by linarith [abs_nonneg (a / b)]⟩
  sin_zero := rfl
  cos_finite := fun x => ⟨1, rfl, by simp⟩
  sqrt_zero := by simp [smallAngleHost, approxSqrt]
  sqrt_one := by
    refine ⟨approxSqrt 1, ?_, rfl⟩
    have h1 : ⌊(1 : ℚ) * (10 : ℚ) ^ 40⌋.toNat = 10 ^ 40 := by
      have : (1 : ℚ) * (10 : ℚ) ^ 40 = ((10 ^ 40 : ℕ) : ℚ) := by norm_num
      rw [this, Int.floor_natCast, Int.toNat_natCast]
    have h2 : 0 < Nat.sqrt (10 ^ 40) := Nat.sqrt_pos.mpr (by norm_num)
    unfold approxSqrt
    rw [h1]
    have h3 : (0 : ℚ) < (Nat.sqrt (10 ^ 40) : ℚ) := by exact_mod_cast h2
    positivity
  atan2_zero := fun x hx => by simp [smallAngleHost, hx.ne']
  mul_nan := fun _ => rfl
  div_nan := fun _ => rfl
  add_nan := fun _ => rfl
  sub_nan := fun _ => rfl
  sin_nan := rfl
  sqrt_nan := rfl
  atan2_nan := fun _ => rfl

/-- The square root by the integer square root is within `10^-6` of the exact one,
relative to it, from `10^-12` on. -/
theorem approxSqrt_near (a : ℚ) (hmin : 1 / 10 ^ 12 ≤ a) :
    |((approxSqrt a : ℚ) : ℝ) - Real.sqrt (a : ℝ)| ≤ Real.sqrt (a : ℝ) / 10 ^ 6 := by
  have ha0 : (0 : ℚ) ≤ a * (10 : ℚ) ^ 40 := by
    have : (0 : ℚ) ≤ a := le_trans (by norm_num) hmin
    positivity
  have hfl0 : 0 ≤ ⌊a * (10 : ℚ) ^ 40⌋ := Int.floor_nonneg.mpr ha0
  set N : ℕ := ⌊a * (10 : ℚ) ^ 40⌋.toNat with hN
  have hNle : (N : ℚ) ≤ a * (10 : ℚ) ^ 40 := by
    have h1 : ((N : ℤ) : ℚ) = ((⌊a * (10 : ℚ) ^ 40⌋ : ℤ) : ℚ) := by
      rw [hN, Int.toNat_of_nonneg hfl0]
    have h2 := Int.floor_le (a * (10 : ℚ) ^ 40)
    calc (N : ℚ) = ((N : ℤ) : ℚ) := by norm_cast
      _ = ((⌊a * (10 : ℚ) ^ 40⌋ : ℤ) : ℚ) := h1
      _ ≤ a * (10 : ℚ) ^ 40 := h2
  have hNlt : a * (10 : ℚ) ^ 40 < (N : ℚ) + 1 := by
    have h1 : ((N : ℤ) : ℚ) = ((⌊a * (10 : ℚ) ^ 40⌋ : ℤ) : ℚ) := by
      rw [hN, Int.toNat_of_nonneg hfl0]
    have h2 := Int.lt_floor_add_one (a * (10 : ℚ) ^ 40)
    calc a * (10 : ℚ) ^ 40 < ((⌊a * (10 : ℚ) ^ 40⌋ : ℤ) : ℚ) + 1 := h2
      _ = ((N : ℤ) : ℚ) + 1 := by rw [h1]
      _ = (N : ℚ) + 1 := by norm_cast
  have hs1 : ((Nat.sqrt N : ℕ) : ℚ) ^ 2 ≤ (N : ℚ) := by exact_mod_cast Nat.sqrt_le' N
  have hs2 : (N : ℚ) + 1 ≤ ((Nat.sqrt N : ℕ) + 1 : ℚ) ^ 2 := by
    have := Nat.lt_succ_sqrt' N
    have h' : N + 1 ≤ (Nat.sqrt N + 1) ^ 2 := this
    exact_mod_cast h'
  have hr : approxSqrt a = (Nat.sqrt N : ℚ) / (10 : ℚ) ^ 20 := rfl
  set r : ℚ := approxSqrt a with hrdef
  have hr0 : (0 : ℚ) ≤ r := by rw [hr]; positivity
  have hrsq : r ^ 2 ≤ a := by
    rw [hr, div_pow, div_le_iff₀ (by positivity)]
    calc ((Nat.sqrt N : ℕ) : ℚ) ^ 2 ≤ (N : ℚ) := hs1
      _ ≤ a * (10 : ℚ) ^ 40 := hNle
      _ = a * ((10 : ℚ) ^ 20) ^ 2 := by norm_num
  have hrsq2 : a < (r + 1 / (10 : ℚ) ^ 20) ^ 2 := by
    have : r + 1 / (10 : ℚ) ^ 20 = ((Nat.sqrt N : ℕ) + 1 : ℚ) / (10 : ℚ) ^ 20 := by
      rw [hr]; ring
    rw [this, div_pow, lt_div_iff₀ (by positivity)]
    calc a * ((10 : ℚ) ^ 20) ^ 2 = a * (10 : ℚ) ^ 40 := by norm_num
      _ < (N : ℚ) + 1 := hNlt
      _ ≤ ((Nat.sqrt N : ℕ) + 1 : ℚ) ^ 2 := hs2
  have h1 : (r : ℝ) ≤ Real.sqrt (a : ℝ) := by
    apply Real.le_sqrt_of_sq_le
    exact_mod_cast hrsq
  have h2 : Real.sqrt (a : ℝ) < (r : ℝ) + 1 / (10 : ℝ) ^ 20 := by
    rw [Real.sqrt_lt' (by have : (0 : ℝ) ≤ (r : ℝ) := by exact_mod_cast hr0
                          positivity)]
    have h' := (Rat.cast_lt (K := ℝ)).mpr hrsq2
    push_cast at h'
    exact h'
  have h3 : (1 : ℝ) / 10 ^ 6 ≤ Real.sqrt (a : ℝ) := by
    apply Real.le_sqrt_of_sq_le
    have h' := (Rat.cast_le (K := ℝ)).mpr hmin
    push_cast at h'
    calc ((1 : ℝ) / 10 ^ 6) ^ 2 = 1 / 10 ^ 12 := by norm_num
      _ ≤ (a : ℝ) := h'
  rw [abs_le]
  constructor
  · have : (1 : ℝ) / 10 ^ 20 ≤ Real.sqrt (a : ℝ) / 10 ^ 6 := by
      rw [le_div_iff₀ (by positivity)]
      calc (1 : ℝ) / 10 ^ 20 * 10 ^ 6 ≤ 1 / 10 ^ 6 := by norm_num
        _ ≤ Real.sqrt (a : ℝ) := h3
    linarith
  · have : (0 : ℝ) ≤ Real.sqrt (a : ℝ) / 10 ^ 6 := by positivity
    linarith

theorem exact_is_near (e : ℚ) : |e - e| ≤ |e| / 10 ^ 6 := by
  rw [sub_self, abs_zero]
  positivity

/-- The idealised host meets the accuracy bounds: its arithmetic is exact, and on small
angles `x`, `y / x` are within `10^-6` of the sine and of the arc tangent. -/
theorem smallAngleHost_accuracy : HostAccuracy smallAngleHost where
  mul_near := fun a b _ _ => ⟨a * b, rfl, exact_is_near _⟩
  div_near := fun a b hb _ _ =>
    ⟨a / b, if_neg hb, exact_is_near _⟩
  add_near := fun a b _ _ => ⟨a + b, rfl, exact_is_near _⟩
  sub_near := fun a b _ _ => ⟨a - b, rfl, exact_is_near _⟩
  sin_near := fun x h0 h1 => by
    refine ⟨x, rfl, ?_⟩
    have hx0 : (0 : ℝ) ≤ (x : ℝ) := by
      have : (0 : ℚ) ≤ x := le_trans (by norm_num) h0
      exact_mod_cast this
    have hx1 : (x : ℝ) ≤ 1 / 1000 := by
      have h' := (Rat.cast_le (K := ℝ)).mpr h1
      push_cast at h'
      exact h'
    have hlow := le_sin_of_small hx0 hx1
    have hup := Real.sin_le hx0
    rw [abs_le]
    constructor <;> nlinarith
  sqrt_near := fun a hmin _ => ⟨approxSqrt a, rfl, approxSqrt_near a hmin⟩
  atan2_near := fun y x hy hx _ hyx => by
    have hx' : x ≠ 0 := hx.ne'
    refine ⟨y / x, by simp [smallAngleHost, hx'], ?_⟩
    have hxR : (0 : ℝ) < (x : ℝ) := by exact_mod_cast hx
    have hy0 : (0 : ℝ) ≤ (y : ℝ) := by
      have : (0 : ℚ) ≤ y := le_trans (by positivity) hy
      exact_mod_cast this
    have hr0 : (0 : ℝ) ≤ (y : ℝ) / (x : ℝ) := by positivity
    have hr1 : (y : ℝ) / (x : ℝ) ≤ 1 / 1000 := by
      rw [div_le_iff₀ hxR]
      have h' := (Rat.cast_le (K := ℝ)).mpr hyx
      push_cast at h'
      linarith
    have hsq : ((y : ℝ) / (x : ℝ)) ^ 2 ≤ 1 / 10 ^ 6 := by nlinarith
    have hlow := le_arctan_of_nonneg hr0
    have hup := arctan_le_self_of_nonneg hr0
    push_cast
    rw [abs_le]
    constructor <;> nlinarith

/-! ## The claims -/

/-- C1: for minutes `current`, `start`, `stop` (in particular those below 1440), the
time-window check yields true iff either the window does not wrap
(`start <= stop`) and `start <= current <= stop`, or it wraps (`stop < start`) and
`current >= start` or `current <= stop`; and when start and end coincide the time is
allowed at the single minute `current = start` only. -/
theorem isTimeAllowed_window (current start stop : Nat) :
    (isTimeAllowed (JsNum.ofNat current) (JsNum.ofNat start) (JsNum.ofNat stop) = true ↔
      (start ≤ stop ∧ start ≤ current ∧ current ≤ stop) ∨
        (stop < start ∧ (start ≤ current ∨ current ≤ stop))) ∧
    (isTimeAllowed (JsNum.ofNat current) (JsNum.ofNat start) (JsNum.ofNat start) = true ↔
      current = start) := by
  constructor
  · rw [isTimeAllowed_ofNat]
    by_cases h : stop < start
    · have h2 : ¬ start ≤ stop := by omega
      simp [h, h2]
    · have h2 : start ≤ stop := by omega
      simp [h, h2]
  · rw [isTimeAllowed_ofNat]
    simp
    omega

/-- C2: for every policy, clock, geolocation outcome and network outcome, the verdict
has `success = true` exactly when the day check, the time-window check, the geofence
test, the allow-list test and the VPN test all passed, and its list of reasons is
non-empty exactly when `success` is false. -/
theorem verdict_success_iff_all_checks (M : JsHost) (allowedIps : List String)
    (settingsSnap : Option Settings) (now : Now)
    (geo : Except JsError Coords) (net : Except JsError IpInfo) :
    ((runVerificationChecks M allowedIps settingsSnap now geo net).verdict.success = true ↔
      dayCheck (settingsOf settingsSnap) now = true ∧
      timeCheck (settingsOf settingsSnap) now = true ∧
      (∃ c, geo = Except.ok c ∧
        JsNum.le
          (getDistance M (JsNum.fin c.latitude) (JsNum.fin c.longitude)
            (JsNum.fin OFFICE_COORDINATES.latitude) (JsNum.fin OFFICE_COORDINATES.longitude))
          ALLOWED_RADIUS_METERS = true) ∧
      (∃ info, net = Except.ok info ∧ info.ipAddress ∈ allowedIps) ∧
      (∃ info, net = Except.ok info ∧ info.isVpnOrProxy = false)) ∧
    ((runVerificationChecks M allowedIps settingsSnap now geo net).verdict.reasons ≠ [] ↔
      (runVerificationChecks M allowedIps settingsSnap now geo net).verdict.success = false) := by
  cases hd : dayCheck (settingsOf settingsSnap) now
  · rw [run_of_policy_failed M allowedIps settingsSnap now geo net (Or.inl hd)]
    cases ht : timeCheck (settingsOf settingsSnap) now <;> simp [hd]
  cases ht : timeCheck (settingsOf settingsSnap) now
  · rw [run_of_policy_failed M allowedIps settingsSnap now geo net (Or.inr ht)]
    simp [hd, ht]
  rw [run_of_policy_passed M allowedIps settingsSnap now geo net hd ht]
  cases geo with
  | error e =>
    cases net with
    | error e2 => simp [geolocationCheck, networkCheck, passedState, initialState]
    | ok info =>
      cases hv : info.isVpnOrProxy <;> by_cases hc : info.ipAddress ∈ allowedIps <;>
        simp [geolocationCheck, networkCheck, passedState, initialState, hv, hc]
  | ok c =>
    cases net with
    | error e2 => simp [geolocationCheck, networkCheck, passedState, initialState]
    | ok info =>
      cases hl : JsNum.le
          (getDistance M (JsNum.fin c.latitude) (JsNum.fin c.longitude)
            (JsNum.fin OFFICE_COORDINATES.latitude) (JsNum.fin OFFICE_COORDINATES.longitude))
          ALLOWED_RADIUS_METERS <;>
        cases hv : info.isVpnOrProxy <;> by_cases hc : info.ipAddress ∈ allowedIps <;>
        simp [geolocationCheck, networkCheck, passedState, initialState, hv, hc, hl]

/-- C3: whenever the day check or the time-window check fails, the verdict has
`success = false`, a non-empty list of reasons and an empty proof, the only effect is
the read of the settings document (neither probe is called, no progress update is
emitted), and the result is the same whatever the probes would have answered. -/
theorem policy_failure_skips_probes (M : JsHost) (allowedIps : List String)
    (settingsSnap : Option Settings) (now : Now)
    (geo : Except JsError Coords) (net : Except JsError IpInfo)
    (h : dayCheck (settingsOf settingsSnap) now = false ∨
      timeCheck (settingsOf settingsSnap) now = false) :
    (runVerificationChecks M allowedIps settingsSnap now geo net).verdict.success = false ∧
    (runVerificationChecks M allowedIps settingsSnap now geo net).verdict.reasons ≠ [] ∧
    (runVerificationChecks M allowedIps settingsSnap now geo net).verdict.proof =
      { geo := none, ip := none } ∧
    (runVerificationChecks M allowedIps settingsSnap now geo net).effects = [Effect.getDoc] ∧
    Effect.getGeolocation ∉ (runVerificationChecks M allowedIps settingsSnap now geo net).effects ∧
    Effect.getIpInfo ∉ (runVerificationChecks M allowedIps settingsSnap now geo net).effects ∧
    statusUpdates (runVerificationChecks M allowedIps settingsSnap now geo net).effects = [] ∧
    ∀ (geo2 : Except JsError Coords) (net2 : Except JsError IpInfo),
      runVerificationChecks M allowedIps settingsSnap now geo2 net2 =
        runVerificationChecks M allowedIps settingsSnap now geo net := by
  have hrun := fun g n => run_of_policy_failed M allowedIps settingsSnap now g n h
  rw [hrun geo net]
  refine ⟨rfl, ?_, rfl, rfl, by simp, by simp, by simp [statusUpdates], fun g n => hrun g n⟩
  rcases h with h | h <;> simp [h]

/-- Witness of C3: default policy on a Sunday at noon, with a location service that
would have answered and a lookup that would have failed. -/
theorem policy_failure_skips_probes_witness :
    (dayCheck (settingsOf none) { day := Weekday.sun, hours := 12, minutes := 0 } = false ∨
      timeCheck (settingsOf none) { day := Weekday.sun, hours := 12, minutes := 0 } = false) ∧
    (runVerificationChecks nanHost [] none { day := Weekday.sun, hours := 12, minutes := 0 }
      (Except.ok OFFICE_COORDINATES)
      (Except.error { name := "Error", message := "x" })).effects = [Effect.getDoc] :=
  ⟨Or.inl (by decide),
    (policy_failure_skips_probes nanHost [] none
      { day := Weekday.sun, hours := 12, minutes := 0 } (Except.ok OFFICE_COORDINATES)
      (Except.error { name := "Error", message := "x" }) (Or.inl (by decide))).2.2.2.1⟩

/-- C4, as stated, fails: with the default policy on a Sunday at 12:00 the day check
and the time-window check both fail and the verdict carries two reasons. -/
theorem sunday_noon_has_two_reasons :
    (runVerificationChecks nanHost [] none { day := Weekday.sun, hours := 12, minutes := 0 }
      (Except.ok OFFICE_COORDINATES)
      (Except.error { name := "Error", message := "x" })).verdict.reasons =
        ["Check-in is not allowed today.", "Check-in is only allowed between 07:00 and 11:00."] ∧
    (runVerificationChecks nanHost [] none { day := Weekday.sun, hours := 12, minutes := 0 }
      (Except.ok OFFICE_COORDINATES)
      (Except.error { name := "Error", message := "x" })).verdict.reasons ≠
        ["Check-in is not allowed today."] := by
  decide!

/-- C4, amended: with the default policy (no settings document) on a Sunday, for every
time of day the verdict has `success = false`; its reasons are exactly
`["Check-in is not allowed today."]` when the time lies in 07:00-11:00, and that entry
followed by `"Check-in is only allowed between 07:00 and 11:00."` at any other time. -/
theorem sunday_default_policy (M : JsHost) (allowedIps : List String) (now : Now)
    (geo : Except JsError Coords) (net : Except JsError IpInfo)
    (hsun : now.day = Weekday.sun) :
    (runVerificationChecks M allowedIps none now geo net).verdict.success = false ∧
    (runVerificationChecks M allowedIps none now geo net).verdict.reasons =
      if 420 ≤ now.hours.val * 60 + now.minutes.val ∧ now.hours.val * 60 + now.minutes.val ≤ 660
      then ["Check-in is not allowed today."]
      else ["Check-in is not allowed today.",
        "Check-in is only allowed between 07:00 and 11:00."] := by
  have hd : dayCheck (settingsOf none) now = false := dayCheck_defaultSettings_sun now hsun
  rw [run_of_policy_failed M allowedIps none now geo net (Or.inl hd)]
  refine ⟨rfl, ?_⟩
  have ht := timeCheck_defaultSettings now
  simp only [settingsOf] at hd ⊢
  have hr : timeReason defaultSettings =
      "Check-in is only allowed between 07:00 and 11:00." := by decide
  rw [hr]
  by_cases h1 : 420 ≤ now.hours.val * 60 + now.minutes.val <;>
    by_cases h2 : now.hours.val * 60 + now.minutes.val ≤ 660 <;>
    simp [hd, ht, h1, h2, dayReason]

/-- Witness of the amended C4: Sunday 08:00. -/
theorem sunday_default_policy_witness :
    (runVerificationChecks nanHost [] none { day := Weekday.sun, hours := 8, minutes := 0 }
      (Except.ok OFFICE_COORDINATES)
      (Except.error { name := "Error", message := "x" })).verdict.reasons =
        ["Check-in is not allowed today."] :=
  (sunday_default_policy nanHost [] { day := Weekday.sun, hours := 8, minutes := 0 }
    (Except.ok OFFICE_COORDINATES) (Except.error { name := "Error", message := "x" }) rfl).2

/-- C5: the day check and the time-window check do not short-circuit each other.
When both fail the reasons are exactly the day entry followed by the time entry, and
the two entries differ; when only the day check fails the reasons are exactly the
day entry; when only the time-window check fails they are exactly the time entry. -/
theorem policy_reasons_independent (M : JsHost) (allowedIps : List String)
    (settingsSnap : Option Settings) (now : Now)
    (geo : Except JsError Coords) (net : Except JsError IpInfo) :
    (dayCheck (settingsOf settingsSnap) now = false →
      timeCheck (settingsOf settingsSnap) now = false →
      (runVerificationChecks M allowedIps settingsSnap now geo net).verdict.reasons =
        ["Check-in is not allowed today.",
          "Check-in is only allowed between " ++ (settingsOf settingsSnap).checkInStart
            ++ " and " ++ (settingsOf settingsSnap).checkInEnd ++ "."] ∧
      "Check-in is not allowed today." ≠
        "Check-in is only allowed between " ++ (settingsOf settingsSnap).checkInStart
          ++ " and " ++ (settingsOf settingsSnap).checkInEnd ++ ".") ∧
    (dayCheck (settingsOf settingsSnap) now = false →
      timeCheck (settingsOf settingsSnap) now = true →
      (runVerificationChecks M allowedIps settingsSnap now geo net).verdict.reasons =
        ["Check-in is not allowed today."]) ∧
    (dayCheck (settingsOf settingsSnap) now = true →
      timeCheck (settingsOf settingsSnap) now = false →
      (runVerificationChecks M allowedIps settingsSnap now geo net).verdict.reasons =
        ["Check-in is only allowed between " ++ (settingsOf settingsSnap).checkInStart
          ++ " and " ++ (settingsOf settingsSnap).checkInEnd ++ "."]) := by
  refine ⟨fun hd ht => ⟨?_, dayReason_ne_timeReason (settingsOf settingsSnap)⟩,
    fun hd ht => ?_, fun hd ht => ?_⟩
  · rw [run_of_policy_failed M allowedIps settingsSnap now geo net (Or.inl hd)]
    simp [hd, ht, dayReason, timeReason]
  · rw [run_of_policy_failed M allowedIps settingsSnap now geo net (Or.inl hd)]
    simp [hd, ht, dayReason]
  · rw [run_of_policy_failed M allowedIps settingsSnap now geo net (Or.inr ht)]
    simp [hd, ht, timeReason]

/-- Witness of C5, on the default policy: Sunday 12:00 (both checks fail), Sunday
08:00 (the day check alone fails) and Wednesday 12:00 (the time check alone fails). -/
theorem policy_reasons_independent_witness :
    (runVerificationChecks nanHost [] none { day := Weekday.sun, hours := 12, minutes := 0 }
      (Except.ok OFFICE_COORDINATES)
      (Except.error { name := "Error", message := "x" })).verdict.reasons =
        ["Check-in is not allowed today.",
          "Check-in is only allowed between " ++ "07:00" ++ " and " ++ "11:00" ++ "."] ∧
    (runVerificationChecks nanHost [] none { day := Weekday.sun, hours := 8, minutes := 0 }
      (Except.ok OFFICE_COORDINATES)
      (Except.error { name := "Error", message := "x" })).verdict.reasons =
        ["Check-in is not allowed today."] ∧
    (runVerificationChecks nanHost [] none { day := Weekday.wed, hours := 12, minutes := 0 }
      (Except.ok OFFICE_COORDINATES)
      (Except.error { name := "Error", message := "x" })).verdict.reasons =
        ["Check-in is only allowed between " ++ "07:00" ++ " and " ++ "11:00" ++ "."] :=
  ⟨((policy_reasons_independent nanHost [] none
      { day := Weekday.sun, hours := 12, minutes := 0 } (Except.ok OFFICE_COORDINATES)
      (Except.error { name := "Error", message := "x" })).1 (by decide) (by decide!)).1,
    (policy_reasons_independent nanHost [] none
      { day := Weekday.sun, hours := 8, minutes := 0 } (Except.ok OFFICE_COORDINATES)
      (Except.error { name := "Error", message := "x" })).2.1 (by decide) (by decide!),
    (policy_reasons_independent nanHost [] none
      { day := Weekday.wed, hours := 12, minutes := 0 } (Except.ok OFFICE_COORDINATES)
      (Except.error { name := "Error", message := "x" })).2.2 (by decide) (by decide!)⟩

/-- C6, on the code: in the end-to-end scenario (policy Mon-Fri 07:00-11:00,
Wednesday 08:00, the location service reporting the office coordinates, the lookup
service answering with an allow-listed address and no VPN flag) `getIpInfo` as written
throws a ReferenceError before calling `fetch`, because nothing declares
`IPGEOLOCATION_API_KEY`; on every host the verdict then has `success = false`,
`"Network check failed"` among its reasons and no `ip` entry in its proof. Had the
identifier resolved to a key, the probe would have resolved with the address. -/
theorem end_to_end_network_probe_throws (M : JsHost) :
    getIpInfo ApiKeyBinding.unresolvable
      (FetchOutcome.response true
        (Except.ok { message := none, ip := "203.0.113.7", security := some { is_vpn := false } })) =
      (Except.error { name := "ReferenceError", message := "IPGEOLOCATION_API_KEY is not defined" },
        []) ∧
    (runVerificationChecks M (ALLOWED_IPS (some "203.0.113.7"))
      (some
        { checkInStart := "07:00", checkInEnd := "11:00",
          allowedDays :=
            { mon := true, tue := true, wed := true, thu := true, fri := true,
              sat := false, sun := false } })
      { day := Weekday.wed, hours := 8, minutes := 0 }
      (getGeolocation (GeolocationService.position OFFICE_COORDINATES))
      (getIpInfo ApiKeyBinding.unresolvable
        (FetchOutcome.response true
          (Except.ok
            { message := none, ip := "203.0.113.7",
              security := some { is_vpn := false } }))).1).verdict.success = false ∧
    "Network check failed" ∈
      (runVerificationChecks M (ALLOWED_IPS (some "203.0.113.7"))
        (some
          { checkInStart := "07:00", checkInEnd := "11:00",
            allowedDays :=
              { mon := true, tue := true, wed := true, thu := true, fri := true,
                sat := false, sun := false } })
        { day := Weekday.wed, hours := 8, minutes := 0 }
        (getGeolocation (GeolocationService.position OFFICE_COORDINATES))
        (getIpInfo ApiKeyBinding.unresolvable
          (FetchOutcome.response true
            (Except.ok
              { message := none, ip := "203.0.113.7",
                security := some { is_vpn := false } }))).1).verdict.reasons ∧
    (getIpInfo (ApiKeyBinding.string "key")
      (FetchOutcome.response true
        (Except.ok
          { message := none, ip := "203.0.113.7", security := some { is_vpn := false } }))).1 =
      Except.ok { ipAddress := "203.0.113.7", isVpnOrProxy := false } ∧
    "203.0.113.7" ∈ ALLOWED_IPS (some "203.0.113.7") := by
  have hnet : (getIpInfo ApiKeyBinding.unresolvable
      (FetchOutcome.response true
        (Except.ok
          { message := none, ip := "203.0.113.7", security := some { is_vpn := false } }))).1 =
      Except.error
        { name := "ReferenceError", message := "IPGEOLOCATION_API_KEY is not defined" } := rfl
  rw [hnet, run_of_policy_passed _ _ _ _ _ _ (by decide) (by decide!), networkCheck_error]
  refine ⟨rfl, ?_, ?_, rfl, by decide⟩
  · simp [geolocationCheck_isIpOk, passedState, initialState]
  · simp

/-- C7: when the policy check passes, the geolocation probe fails and the network
probe resolves with an allow-listed address and no VPN flag, the network checks are
still run (the probe is called and both of its progress entries report success) and
the verdict is `success = false`, `reasons = ["Location failed"]`, with the observed
address under `proof.ip` and nothing under `proof.geo`. -/
theorem location_failure_still_checks_network (M : JsHost) (allowedIps : List String)
    (settingsSnap : Option Settings) (now : Now) (error : JsError) (ipInfo : IpInfo)
    (hd : dayCheck (settingsOf settingsSnap) now = true)
    (ht : timeCheck (settingsOf settingsSnap) now = true)
    (hip : ipInfo.ipAddress ∈ allowedIps) (hvpn : ipInfo.isVpnOrProxy = false) :
    runVerificationChecks M allowedIps settingsSnap now (Except.error error) (Except.ok ipInfo) =
      { verdict :=
          { success := false
            reasons := ["Location failed"]
            proof := { geo := none, ip := some ipInfo.ipAddress } }
        effects :=
          [Effect.getDoc, Effect.getGeolocation,
            Effect.setStatus [(Check.geo, { state := "fail", message := error.message })],
            Effect.getIpInfo,
            Effect.setStatus
              [(Check.ip, { state := "success", message := "Your IP: " ++ ipInfo.ipAddress })],
            Effect.setStatus [(Check.vpn, { state := "success", message := "Connection OK" })]] } := by
  rw [run_of_policy_passed M allowedIps settingsSnap now _ _ hd ht]
  simp [geolocationCheck, networkCheck, passedState, initialState, hip, hvpn]

/-- Witness of C7: default policy, Wednesday 08:00, location access denied, the
lookup resolving with the one allow-listed address. -/
theorem location_failure_still_checks_network_witness :
    (runVerificationChecks nanHost ["203.0.113.7"] none
      { day := Weekday.wed, hours := 8, minutes := 0 }
      (Except.error { name := "Error", message := "Location access denied." })
      (Except.ok { ipAddress := "203.0.113.7", isVpnOrProxy := false })).verdict =
        { success := false
          reasons := ["Location failed"]
          proof := { geo := none, ip := some "203.0.113.7" } } :=
  congrArg Run.verdict
    (location_failure_still_checks_network nanHost ["203.0.113.7"] none
      { day := Weekday.wed, hours := 8, minutes := 0 }
      { name := "Error", message := "Location access denied." }
      { ipAddress := "203.0.113.7", isVpnOrProxy := false }
      (by decide) (by decide!) (by decide) rfl)

/-- C8: when the policy check passes and the network probe fails, the `ip` and the
`vpn` progress entries both end as `fail` with the same message `"Check Failed"`
(written by one update, the last effect of the run), `"Network check failed"` occurs
exactly once among the reasons, neither `"Invalid network"` nor `"VPN detected"`
occurs, the proof has no `ip` entry, and `success` is false. -/
theorem network_failure_recorded_once (M : JsHost) (allowedIps : List String)
    (settingsSnap : Option Settings) (now : Now) (geo : Except JsError Coords)
    (error : JsError) (prev : VerificationStatus)
    (hd : dayCheck (settingsOf settingsSnap) now = true)
    (ht : timeCheck (settingsOf settingsSnap) now = true) :
    (statusAfter prev
      (runVerificationChecks M allowedIps settingsSnap now geo (Except.error error)).effects).ip =
        { state := "fail", message := "Check Failed" } ∧
    (statusAfter prev
      (runVerificationChecks M allowedIps settingsSnap now geo (Except.error error)).effects).vpn =
        { state := "fail", message := "Check Failed" } ∧
    (runVerificationChecks M allowedIps settingsSnap now geo (Except.error error)).effects.getLast? =
      some (Effect.setStatus
        [(Check.ip, { state := "fail", message := "Check Failed" }),
          (Check.vpn, { state := "fail", message := "Check Failed" })]) ∧
    (runVerificationChecks M allowedIps settingsSnap now geo
      (Except.error error)).verdict.reasons.count "Network check failed" = 1 ∧
    "Invalid network" ∉
      (runVerificationChecks M allowedIps settingsSnap now geo (Except.error error)).verdict.reasons ∧
    "VPN detected" ∉
      (runVerificationChecks M allowedIps settingsSnap now geo (Except.error error)).verdict.reasons ∧
    (runVerificationChecks M allowedIps settingsSnap now geo
      (Except.error error)).verdict.proof.ip = none ∧
    (runVerificationChecks M allowedIps settingsSnap now geo
      (Except.error error)).verdict.success = false := by
  rw [run_of_policy_passed M allowedIps settingsSnap now _ _ hd ht]
  cases geo with
  | error e =>
    simp [geolocationCheck, networkCheck, passedState, initialState, statusAfter,
      StatusUpdate.apply, VerificationStatus.set]
  | ok c =>
    cases hl : JsNum.le
        (getDistance M (JsNum.fin c.latitude) (JsNum.fin c.longitude)
          (JsNum.fin OFFICE_COORDINATES.latitude) (JsNum.fin OFFICE_COORDINATES.longitude))
        ALLOWED_RADIUS_METERS <;>
      simp [geolocationCheck, networkCheck, passedState, initialState, statusAfter,
        StatusUpdate.apply, VerificationStatus.set, hl]

/-- Witness of C8: default policy, Wednesday 08:00, location access denied, the
lookup failing, from the progress object that `handleCheckIn` sets before the call. -/
theorem network_failure_recorded_once_witness :
    (runVerificationChecks nanHost ["203.0.113.7"] none
      { day := Weekday.wed, hours := 8, minutes := 0 }
      (getGeolocation (GeolocationService.failure 1))
      (Except.error
        { name := "Error", message := "Could not verify network connection." })).verdict.reasons.count
        "Network check failed" = 1 :=
  (network_failure_recorded_once nanHost ["203.0.113.7"] none
    { day := Weekday.wed, hours := 8, minutes := 0 }
    (getGeolocation (GeolocationService.failure 1))
    { name := "Error", message := "Could not verify network connection." }
    { geo := { state := "pending", message := "Checking..." }
      ip := { state := "pending", message := "Waiting..." }
      vpn := { state := "pending", message := "Waiting..." }
      final := { state := "idle", message := "" } }
    (by decide) (by decide!)).2.2.2.1

/-- C9, counterexample: the distance from a point whose latitude is `NaN` to itself
is `NaN`, not 0 (each product, quotient, difference and sum with a `NaN` operand is
`NaN`, and so are `Math.sin`, `Math.sqrt` and `Math.atan2` of `NaN`). -/
theorem distance_of_nan_point_is_nan :
    getDistance smallAngleHost JsNum.nan (JsNum.fin 0) JsNum.nan (JsNum.fin 0) = JsNum.nan ∧
      JsNum.nan ≠ JsNum.fin 0 :=
  ⟨getDistance_nan smallAngleHost smallAngleHost_laws (JsNum.fin 0), by decide⟩

/-- C9 (amended): on a host that meets `HostLaws`, `getDistance` from a point to
itself is 0 for every finite longitude and every finite latitude of magnitude at most
`10^300`; `getDistance` is symmetric in its two points for all inputs, finite or
not; and from a point whose latitude is `NaN` to itself it is `NaN`. -/
theorem getDistance_zero_and_symmetric (M : JsHost) (h : HostLaws M) :
    (∀ lat lon : ℚ, |lat| ≤ 10 ^ 300 →
        getDistance M (JsNum.fin lat) (JsNum.fin lon) (JsNum.fin lat) (JsNum.fin lon) =
          JsNum.fin 0) ∧
      (∀ lat1 lon1 lat2 lon2 : JsNum,
        getDistance M lat1 lon1 lat2 lon2 = getDistance M lat2 lon2 lat1 lon1) ∧
      (∀ lon : JsNum, getDistance M JsNum.nan lon JsNum.nan lon = JsNum.nan) :=
  ⟨getDistance_self M h, getDistance_symm M h, getDistance_nan M h⟩

/-- Witness of C9: the idealised host meets the laws; on it the office is at
distance 0 from itself, and the distance between the office and the point one
kilometre to the south is the same in both directions. -/
theorem getDistance_zero_and_symmetric_witness :
    HostLaws smallAngleHost ∧
      getDistance smallAngleHost (JsNum.fin OFFICE_COORDINATES.latitude)
          (JsNum.fin OFFICE_COORDINATES.longitude) (JsNum.fin OFFICE_COORDINATES.latitude)
          (JsNum.fin OFFICE_COORDINATES.longitude) = JsNum.fin 0 ∧
      getDistance smallAngleHost (JsNum.fin (-888194289010475 / 140737488355328))
          (JsNum.fin OFFICE_COORDINATES.longitude) (JsNum.fin OFFICE_COORDINATES.latitude)
          (JsNum.fin OFFICE_COORDINATES.longitude) =
        getDistance smallAngleHost (JsNum.fin OFFICE_COORDINATES.latitude)
          (JsNum.fin OFFICE_COORDINATES.longitude)
          (JsNum.fin (-888194289010475 / 140737488355328))
          (JsNum.fin OFFICE_COORDINATES.longitude) :=
  ⟨smallAngleHost_laws,
    (getDistance_zero_and_symmetric smallAngleHost smallAngleHost_laws).1
      OFFICE_COORDINATES.latitude OFFICE_COORDINATES.longitude
      (by rw [abs_le]; constructor <;> norm_num [OFFICE_COORDINATES]),
    (getDistance_zero_and_symmetric smallAngleHost smallAngleHost_laws).2.1 _ _ _ _⟩

/-- C10: on a host that meets `HostLaws` and `HostAccuracy`, with the office at
(-6.3020, 106.6520) and the radius of 50 m, a probe result at the office coordinates
has distance 0 and `isLocationOk = true`; a probe result at (-6.3110, 106.6520) has a
distance between 1000 m and 1001 m and `isLocationOk = false`. -/
theorem geofence_at_office_and_one_km_away (M : JsHost) (h : HostLaws M)
    (ha : HostAccuracy M) (s : CheckState) :
    getDistance M (JsNum.fin OFFICE_COORDINATES.latitude)
        (JsNum.fin OFFICE_COORDINATES.longitude) (JsNum.fin OFFICE_COORDINATES.latitude)
        (JsNum.fin OFFICE_COORDINATES.longitude) = JsNum.fin 0 ∧
      (geolocationCheck M (Except.ok OFFICE_COORDINATES) s).isLocationOk = true ∧
      (∃ d : ℚ,
        getDistance M (JsNum.fin (-888194289010475 / 140737488355328))
            (JsNum.fin OFFICE_COORDINATES.longitude) (JsNum.fin OFFICE_COORDINATES.latitude)
            (JsNum.fin OFFICE_COORDINATES.longitude) = JsNum.fin d ∧
          1000 < d ∧ d < 1001) ∧
      (geolocationCheck M
        (Except.ok
          { latitude := -888194289010475 / 140737488355328
            longitude := OFFICE_COORDINATES.longitude }) s).isLocationOk = false := by
  have h0 := getDistance_self M h OFFICE_COORDINATES.latitude OFFICE_COORDINATES.longitude
    (by rw [abs_le]; constructor <;> norm_num [OFFICE_COORDINATES])
  obtain ⟨d, hd, hd1, hd2⟩ := getDistance_one_km M h ha
  have hd' : getDistance M (JsNum.fin (-888194289010475 / 140737488355328))
      (JsNum.fin OFFICE_COORDINATES.longitude) (JsNum.fin OFFICE_COORDINATES.latitude)
      (JsNum.fin OFFICE_COORDINATES.longitude) = JsNum.fin d := hd
  refine ⟨h0, ?_, ⟨d, hd', hd1, hd2⟩, ?_⟩
  · rw [geolocationCheck_isLocationOk]
    simp only [h0]
    simp [JsNum.le, ALLOWED_RADIUS_METERS, JsNum.ofNat]
  · rw [geolocationCheck_isLocationOk]
    simp only [hd']
    simp only [JsNum.le, ALLOWED_RADIUS_METERS, JsNum.ofNat, decide_eq_false_iff_not, not_le]
    have : ((50 : ℕ) : ℚ) = 50 := by norm_num
    rw [this]
    linarith

/-- Witness of C10: the idealised host meets both sets of laws, and on it the check
started after a passed policy accepts the office and rejects the point one kilometre
to the south. -/
theorem geofence_at_office_and_one_km_away_witness :
    HostLaws smallAngleHost ∧ HostAccuracy smallAngleHost ∧
      (geolocationCheck smallAngleHost (Except.ok OFFICE_COORDINATES)
        passedState).isLocationOk = true ∧
      (geolocationCheck smallAngleHost
        (Except.ok
          { latitude := -888194289010475 / 140737488355328
            longitude := OFFICE_COORDINATES.longitude }) passedState).isLocationOk = false :=
  ⟨smallAngleHost_laws, smallAngleHost_accuracy,
    (geofence_at_office_and_one_km_away smallAngleHost smallAngleHost_laws
      smallAngleHost_accuracy passedState).2.1,
    (geofence_at_office_and_one_km_away smallAngleHost smallAngleHost_laws
      smallAngleHost_accuracy passedState).2.2.2⟩

/-- C11, on the code: with `IPGEOLOCATION_API_KEY` unresolvable, as it is in
`App.js`, `getIpInfo` throws a ReferenceError and calls nothing, whatever the lookup
service would answer and whether or not a key is configured; the configuration error
of line 558 is thrown for the placeholder text only; and a key bound to `undefined`
passes the guard of line 557, so that `fetch` is called with `apiKey=undefined`. -/
theorem getIpInfo_key_guard (net : FetchOutcome) :
    getIpInfo ApiKeyBinding.unresolvable net =
      (Except.error { name := "ReferenceError", message := "IPGEOLOCATION_API_KEY is not defined" },
        []) ∧
    getIpInfo (ApiKeyBinding.string "YOUR_IPGEOLOCATION_API_KEY") net =
      (Except.error { name := "Error", message := "ipgeolocation.io API key not set." }, []) ∧
    (getIpInfo ApiKeyBinding.undefined net).2 =
      [Effect.fetch "https://api.ipgeolocation.io/ipgeo?apiKey=undefined"] := by
  refine ⟨rfl, rfl, ?_⟩
  simp only [getIpInfo]
  cases ipInfoOfFetch net <;> rfl

/-- C13, as stated, fails: with `checkInStart = "ab:cd"` (non-numeric parts), and with
`checkInStart = "0700"` (no colon), on a Wednesday at 08:00 the call returns a
verdict, a rejection carrying the time-window reason, where the claim has it throw. -/
theorem malformed_start_returns_verdict :
    runVerificationChecks nanHost [] (some { defaultSettings with checkInStart := "ab:cd" })
        { day := Weekday.wed, hours := 8, minutes := 0 }
        (Except.ok OFFICE_COORDINATES) (Except.error { name := "Error", message := "x" }) =
      { verdict :=
          { success := false
            reasons := ["Check-in is only allowed between ab:cd and 11:00."]
            proof := { geo := none, ip := none } }
        effects := [Effect.getDoc] } ∧
    runVerificationChecks nanHost [] (some { defaultSettings with checkInStart := "0700" })
        { day := Weekday.wed, hours := 8, minutes := 0 }
        (Except.ok OFFICE_COORDINATES) (Except.error { name := "Error", message := "x" }) =
      { verdict :=
          { success := false
            reasons := ["Check-in is only allowed between 0700 and 11:00."]
            proof := { geo := none, ip := none } }
        effects := [Effect.getDoc] } := by
  constructor <;> decide!

/-- C13, amended: when `timeToMinutes` turns `checkInStart` or `checkInEnd` into `NaN`
(as it does for non-numeric parts or a missing colon), the time-window check is false
at every time of day and the call returns a verdict: `success = false`, the
time-window reason last among the reasons (after the day reason, if the day check
fails too), an empty proof, and no effect but the read of the settings. -/
theorem malformed_time_is_rejected (M : JsHost) (allowedIps : List String)
    (settings : Settings) (now : Now)
    (geo : Except JsError Coords) (net : Except JsError IpInfo)
    (h : timeToMinutes settings.checkInStart = JsNum.nan ∨
      timeToMinutes settings.checkInEnd = JsNum.nan) :
    timeCheck settings now = false ∧
    runVerificationChecks M allowedIps (some settings) now geo net =
      { verdict :=
          { success := false
            reasons :=
              (if dayCheck settings now then [] else ["Check-in is not allowed today."]) ++
                ["Check-in is only allowed between " ++ settings.checkInStart ++ " and "
                  ++ settings.checkInEnd ++ "."]
            proof := { geo := none, ip := none } }
        effects := [Effect.getDoc] } := by
  have ht : timeCheck settings now = false := by
    unfold timeCheck
    rcases h with h | h
    · rw [h, isTimeAllowed_nan_start]
    · rw [h, isTimeAllowed_nan_end]
  refine ⟨ht, ?_⟩
  rw [run_of_policy_failed M allowedIps (some settings) now geo net (Or.inr ht)]
  simp only [settingsOf, ht]
  rfl

/-- Witness of the amended C13: `"ab:cd"`, `"0700"` and `"1e400:-1e400"` (an infinity
plus the opposite infinity) are turned into `NaN`, and the first, as start of the
window, is rejected on a Wednesday at 08:00. -/
theorem malformed_time_is_rejected_witness :
    timeToMinutes "ab:cd" = JsNum.nan ∧ timeToMinutes "0700" = JsNum.nan ∧
    timeToMinutes "1e400:-1e400" = JsNum.nan ∧
    timeCheck { defaultSettings with checkInStart := "ab:cd" }
      { day := Weekday.wed, hours := 8, minutes := 0 } = false :=
  ⟨by decide, by decide!, by decide!,
    (malformed_time_is_rejected nanHost [] { defaultSettings with checkInStart := "ab:cd" }
      { day := Weekday.wed, hours := 8, minutes := 0 } (Except.ok OFFICE_COORDINATES)
      (Except.error { name := "Error", message := "x" }) (Or.inl (by decide))).1⟩

/-- C14: the allow-list is empty exactly when the environment variable is unset or
empty, and with an empty allow-list the verdict has `success = false` for every host,
policy, clock, geolocation outcome and network outcome. -/
theorem empty_allow_list_never_succeeds (M : JsHost) (REACT_APP_ALLOWED_IPS : Option String)
    (settingsSnap : Option Settings) (now : Now)
    (geo : Except JsError Coords) (net : Except JsError IpInfo) :
    (ALLOWED_IPS REACT_APP_ALLOWED_IPS = [] ↔
      REACT_APP_ALLOWED_IPS = none ∨ REACT_APP_ALLOWED_IPS = some "") ∧
    (ALLOWED_IPS REACT_APP_ALLOWED_IPS = [] →
      (runVerificationChecks M (ALLOWED_IPS REACT_APP_ALLOWED_IPS) settingsSnap now geo
        net).verdict.success = false) := by
  constructor
  · cases REACT_APP_ALLOWED_IPS with
    | none => simp [ALLOWED_IPS]
    | some v =>
      by_cases hv : v = ""
      · simp [ALLOWED_IPS, hv]
      · simp [ALLOWED_IPS, hv, split, splitChars_ne_nil]
  · intro h
    rw [h]
    cases hd : dayCheck (settingsOf settingsSnap) now
    · rw [run_of_policy_failed M [] settingsSnap now geo net (Or.inl hd)]
    cases ht : timeCheck (settingsOf settingsSnap) now
    · rw [run_of_policy_failed M [] settingsSnap now geo net (Or.inr ht)]
    rw [run_of_policy_passed M [] settingsSnap now geo net hd ht]
    have hip : (networkCheck [] net (geolocationCheck M geo passedState)).isIpOk = false :=
      networkCheck_isIpOk_nil net _ (by simp [geolocationCheck_isIpOk, passedState, initialState])
    simp [hip]

/-- Witness of C14: no environment variable, default policy, Wednesday 08:00, the
location service failing, the lookup resolving with some address and no VPN flag. -/
theorem empty_allow_list_never_succeeds_witness :
    ALLOWED_IPS none = [] ∧
    (runVerificationChecks nanHost (ALLOWED_IPS none) none
      { day := Weekday.wed, hours := 8, minutes := 0 }
      (getGeolocation (GeolocationService.failure 1))
      (Except.ok { ipAddress := "203.0.113.7", isVpnOrProxy := false })).verdict.success = false :=
  ⟨rfl,
    (empty_allow_list_never_succeeds nanHost none none
      { day := Weekday.wed, hours := 8, minutes := 0 }
      (getGeolocation (GeolocationService.failure 1))
      (Except.ok { ipAddress := "203.0.113.7", isVpnOrProxy := false })).2 rfl⟩

/-- C12, as stated, fails: when the location service reports exactly the office
coordinates (the doubles written `-6.3020` and `106.6520`, the first of which is
`-6.30199999999999960...`) on a Wednesday at 08:00 under the default policy,
`proof.geo` is `"-6.3020, 106.6520"`, whereas dropping the digits beyond the fourth
decimal place gives `"-6.3019, 106.6520"`. -/
theorem office_latitude_is_rounded_not_truncated :
    (runVerificationChecks nanHost [] none { day := Weekday.wed, hours := 8, minutes := 0 }
      (Except.ok OFFICE_COORDINATES)
      (Except.error { name := "Error", message := "x" })).verdict.proof.geo =
        some "-6.3020, 106.6520" ∧
    truncatedFixed OFFICE_COORDINATES.latitude 4 ++ ", "
      ++ truncatedFixed OFFICE_COORDINATES.longitude 4 = "-6.3019, 106.6520" ∧
    (runVerificationChecks nanHost [] none { day := Weekday.wed, hours := 8, minutes := 0 }
      (Except.ok OFFICE_COORDINATES)
      (Except.error { name := "Error", message := "x" })).verdict.proof.geo ≠
        some (truncatedFixed OFFICE_COORDINATES.latitude 4 ++ ", "
          ++ truncatedFixed OFFICE_COORDINATES.longitude 4) := by
  refine ⟨?_, ?_, ?_⟩ <;> decide!

/-- C12, amended: whenever the policy check passes and the geolocation probe succeeds,
`proof.geo` is `"<lat>, <lon>"` where each of latitude and longitude is the raw value
rounded to the nearest multiple of `10^-4` (half a unit going to the larger
magnitude) and written with its sign and 4 decimals: the integer `n` laid out is the
one with `|x| * 10^4 - 1/2 < n <= |x| * 10^4 + 1/2`. The entry is the same for every
host and network outcome, hence whether or not the geofence or network checks pass.
(Values of magnitude `10^21` or more, which no coordinate is, are left to the host.) -/
theorem geo_proof_is_rounded (M : JsHost) (allowedIps : List String)
    (settingsSnap : Option Settings) (now : Now) (coords : Coords)
    (net : Except JsError IpInfo)
    (hd : dayCheck (settingsOf settingsSnap) now = true)
    (ht : timeCheck (settingsOf settingsSnap) now = true)
    (hlat : |coords.latitude| < (10 : ℚ) ^ 21) (hlon : |coords.longitude| < (10 : ℚ) ^ 21) :
    ∃ nlat nlon : ℕ,
      (|coords.latitude| * (10 : ℚ) ^ 4 - 1 / 2 < (nlat : ℚ) ∧
        (nlat : ℚ) ≤ |coords.latitude| * (10 : ℚ) ^ 4 + 1 / 2) ∧
      (|coords.longitude| * (10 : ℚ) ^ 4 - 1 / 2 < (nlon : ℚ) ∧
        (nlon : ℚ) ≤ |coords.longitude| * (10 : ℚ) ^ 4 + 1 / 2) ∧
      (runVerificationChecks M allowedIps settingsSnap now (Except.ok coords)
        net).verdict.proof.geo =
          some (((if coords.latitude < 0 then "-" else "") ++ fixedPoint nlat 4) ++ ", "
            ++ ((if coords.longitude < 0 then "-" else "") ++ fixedPoint nlon 4)) := by
  refine ⟨⌊|coords.latitude| * (10 : ℚ) ^ 4 + 1 / 2⌋.toNat,
    ⌊|coords.longitude| * (10 : ℚ) ^ 4 + 1 / 2⌋.toNat,
    round_half_up_nearest _ (by positivity), round_half_up_nearest _ (by positivity), ?_⟩
  rw [run_of_policy_passed M allowedIps settingsSnap now _ _ hd ht]
  simp only [networkCheck_proof_geo, geolocationCheck_proof_geo]
  rw [toFixed_fin M _ 4 hlat, toFixed_fin M _ 4 hlon]

/-- Witness of the amended C12: the office coordinates on a Wednesday at 08:00 under
the default policy, for which the integers laid out are 63020 and 1066520. -/
theorem geo_proof_is_rounded_witness :
    ∃ nlat nlon : ℕ,
      (|OFFICE_COORDINATES.latitude| * (10 : ℚ) ^ 4 - 1 / 2 < (nlat : ℚ) ∧
        (nlat : ℚ) ≤ |OFFICE_COORDINATES.latitude| * (10 : ℚ) ^ 4 + 1 / 2) ∧
      (|OFFICE_COORDINATES.longitude| * (10 : ℚ) ^ 4 - 1 / 2 < (nlon : ℚ) ∧
        (nlon : ℚ) ≤ |OFFICE_COORDINATES.longitude| * (10 : ℚ) ^ 4 + 1 / 2) ∧
      (runVerificationChecks nanHost [] none { day := Weekday.wed, hours := 8, minutes := 0 }
        (Except.ok OFFICE_COORDINATES)
        (Except.error { name := "Error", message := "x" })).verdict.proof.geo =
          some (((if OFFICE_COORDINATES.latitude < 0 then "-" else "") ++ fixedPoint nlat 4)
            ++ ", "
            ++ ((if OFFICE_COORDINATES.longitude < 0 then "-" else "") ++ fixedPoint nlon 4)) :=
  geo_proof_is_rounded nanHost [] none { day := Weekday.wed, hours := 8, minutes := 0 }
    OFFICE_COORDINATES (Except.error { name := "Error", message := "x" })
    (by decide) (by decide!) (by decide!) (by decide!)

/-- C15: for every well-formed `checkOutTime` text `HH:MM` (hour below 24, minute
below 60, two digits each; `17:00` when there is no settings document) and every
local time, `handleCheckOut` attempts no `updateDoc` iff `h*60+m < HH*60+MM`; in that
case it alerts and leaves `status` as it was; otherwise it calls `updateDoc` with
status `Checked Out` on the log of the day, and `status` becomes `Checked Out` when
that call resolves. -/
theorem check_out_time_gate (HH MM : Nat) (settingsSnap : Option CheckOutSettings) (now : Now)
    (updateOutcome : Except JsError Unit) (status : String)
    (hHH : HH < 24) (hMM : MM < 60)
    (hs : settingsSnap = some { checkOutTime := hhmm HH MM } ∨
      (settingsSnap = none ∧ HH = 17 ∧ MM = 0)) :
    ((∀ st, DashboardEffect.updateDoc st ∉
        (handleCheckOut settingsSnap now updateOutcome status).effects) ↔
      now.hours.val * 60 + now.minutes.val < HH * 60 + MM) ∧
    (now.hours.val * 60 + now.minutes.val < HH * 60 + MM →
      handleCheckOut settingsSnap now updateOutcome status =
        { status := status
          effects :=
            [DashboardEffect.setIsProcessing true, DashboardEffect.getDoc,
              DashboardEffect.alert ("You can only check out after " ++ hhmm HH MM ++ "."),
              DashboardEffect.setIsProcessing false] }) ∧
    (¬ now.hours.val * 60 + now.minutes.val < HH * 60 + MM →
      DashboardEffect.updateDoc "Checked Out" ∈
        (handleCheckOut settingsSnap now updateOutcome status).effects ∧
      (updateOutcome = Except.ok () →
        (handleCheckOut settingsSnap now updateOutcome status).status = "Checked Out")) := by
  have hset : checkOutSettingsOf settingsSnap = { checkOutTime := hhmm HH MM } := by
    rcases hs with hs | ⟨hs, h17, h0⟩
    · rw [hs]; rfl
    · rw [hs, h17, h0]; decide
  have hiff := tooEarly_iff_minutes HH MM (by omega) hMM now
  by_cases hlt : now.hours.val * 60 + now.minutes.val < HH * 60 + MM
  · have hearly : tooEarly (hhmm HH MM) now = true := hiff.mpr hlt
    have hrun : handleCheckOut settingsSnap now updateOutcome status =
        { status := status
          effects :=
            [DashboardEffect.setIsProcessing true, DashboardEffect.getDoc,
              DashboardEffect.alert ("You can only check out after " ++ hhmm HH MM ++ "."),
              DashboardEffect.setIsProcessing false] } := by
      simp [handleCheckOut, hset, hearly]
    refine ⟨?_, fun _ => hrun, fun h => absurd hlt h⟩
    rw [hrun]
    simp [hlt]
  · have hearly : tooEarly (hhmm HH MM) now = false := by
      cases h : tooEarly (hhmm HH MM) now
      · rfl
      · exact absurd (hiff.mp h) hlt
    refine ⟨?_, fun h => absurd h hlt, fun _ => ?_⟩
    · cases updateOutcome <;> simp [handleCheckOut, hset, hearly, hlt]
    · cases updateOutcome <;> simp [handleCheckOut, hset, hearly]

/-- Witness of C15: with no settings document (`17:00`), at 16:59 the check-out is
refused and the status stays `Checked In`. -/
theorem check_out_time_gate_witness :
    handleCheckOut none { day := Weekday.wed, hours := 16, minutes := 59 } (Except.ok ())
        "Checked In" =
      { status := "Checked In"
        effects :=
          [DashboardEffect.setIsProcessing true, DashboardEffect.getDoc,
            DashboardEffect.alert ("You can only check out after " ++ hhmm 17 0 ++ "."),
            DashboardEffect.setIsProcessing false] } :=
  (check_out_time_gate 17 0 none { day := Weekday.wed, hours := 16, minutes := 59 }
    (Except.ok ()) "Checked In" (by decide) (by decide) (Or.inr ⟨rfl, rfl, rfl⟩)).2.1 (by decide)

end AttendanceApp
